import Mathlib

/-!
# hello_dx11: a verification development of `entryPoint.cpp`

The program opens a window, sets up a Direct3D 11 pipeline and draws two
rotating cubes.  This file embeds the parts of `entryPoint.cpp` that carry
behaviour of their own:

* `Graphics::Update`     (angle stepping and the two world matrices),
* `Graphics::Render`     (the device commands of one frame),
* `Graphics::Terminate`  (release of the fifteen `ComPtr` members),
* `Graphics::Initialize` (the fail-fast chain of device calls),
* `MessageHandler` and the message loop of `WinMain`.

Single-precision arithmetic is modelled exactly (IEEE-754 binary32, round to
nearest, ties to even).  DirectXMath, the Direct3D device and the window
system are external: the matrix functions are a parameter of the model, the
device is an oracle for the result codes of its calls, and the window system
is an oracle for the messages it sends to the window procedure during a
system call or inside `PeekMessage`.
-/

namespace HelloDx11

/-! ## IEEE-754 binary32 -/

/-- A binary32 value.  `finite neg mag` is `(-1)^neg * mag * 2^(-149)`: every
finite binary32 number is an integer multiple of the least subnormal. -/
inductive Float32 where
  | finite (neg : Bool) (mag : Nat)
  | inf (neg : Bool)
  | nan
deriving DecidableEq, Repr

namespace Float32

/-- Round the rational `p / q` to the nearest multiple of `2^s`, ties to the
even multiple. -/
def roundAt (s p q : Nat) : Nat :=
  let d := q * 2 ^ s
  let qt := p / d
  let rm := p % d
  if 2 * rm < d then qt * 2 ^ s
  else if d < 2 * rm then (qt + 1) * 2 ^ s
  else if qt % 2 = 0 then qt * 2 ^ s
  else (qt + 1) * 2 ^ s

/-- The spacing exponent of the binary32 numbers around a magnitude whose
integer part is `f`: zero below `2^24` (subnormals and the first binade),
and otherwise what leaves 24 significant bits. -/
def shiftOf (f : Nat) : Nat :=
  if f < 2 ^ 24 then 0 else Nat.log2 f - 23

/-- Round the rational `p / q` to a magnitude with at most 24 significant
bits, to nearest, ties to even. -/
def roundRatio (p q : Nat) : Nat :=
  roundAt (shiftOf (p / q)) p q

/-- The least magnitude that no longer fits: `2^128` in units of `2^(-149)`. -/
def overflowMag : Nat := 2 ^ 128 * 2 ^ 149

/-- Pack a rounded magnitude, overflowing to infinity. -/
def pack (neg : Bool) (m : Nat) : Float32 :=
  if m < overflowMag then finite neg m else inf neg

/-- The value of a decimal literal `num / den` with suffix `f`. -/
def ofDecimal (num den : Nat) : Float32 :=
  pack false (roundRatio (num * 2 ^ 149) den)

/-- Conversion of an integer (`static_cast<float>` and the usual arithmetic
conversions). -/
def ofInt (n : Int) : Float32 :=
  pack (decide (n < 0)) (roundRatio (n.natAbs * 2 ^ 149) 1)

/-- Unary minus: flips the sign bit. -/
def fneg : Float32 → Float32
  | finite s m => finite (!s) m
  | inf s => inf (!s)
  | nan => nan

/-- Addition, round to nearest even. -/
def fadd : Float32 → Float32 → Float32
  | nan, _ => nan
  | _, nan => nan
  | inf s, inf t => if s = t then inf s else nan
  | inf s, finite _ _ => inf s
  | finite _ _, inf t => inf t
  | finite s a, finite t b =>
    if s = t then pack s (roundRatio (a + b) 1)
    else if a = b then finite false 0
    else if b < a then pack s (roundRatio (a - b) 1)
    else pack t (roundRatio (b - a) 1)

/-- Multiplication, round to nearest even. -/
def fmul : Float32 → Float32 → Float32
  | nan, _ => nan
  | _, nan => nan
  | inf s, inf t => inf (xor s t)
  | inf s, finite t b => if b = 0 then nan else inf (xor s t)
  | finite s a, inf t => if a = 0 then nan else inf (xor s t)
  | finite s a, finite t b => pack (xor s t) (roundRatio (a * b) (2 ^ 149))

/-- Whether the value is one of the two zeros. -/
def isZero : Float32 → Bool
  | finite _ m => m == 0
  | _ => false

/-- Division, round to nearest even.  The second component tells whether
the divisor was a zero, in which case the quotient is an infinity or a NaN
(IEEE-754 division by zero, or the invalid operation `0 / 0`). -/
def fdiv : Float32 → Float32 → Float32 × Bool
  | nan, y => (nan, isZero y)
  | inf s, finite t b => (inf (xor s t), b == 0)
  | inf _, _ => (nan, false)
  | finite _ _, nan => (nan, false)
  | finite s _, inf t => (finite (xor s t) 0, false)
  | finite s a, finite t b =>
    if b = 0 then (if a = 0 then nan else inf (xor s t), true)
    else (pack (xor s t) (roundRatio (a * 2 ^ 149) b), false)

/-- The comparison `x > y`; false when either side is a NaN, and the two
zeros compare equal. -/
def fgt : Float32 → Float32 → Bool
  | nan, _ => false
  | _, nan => false
  | inf s, inf t => !s && t
  | inf s, finite _ _ => !s
  | finite _ _, inf t => t
  | finite s a, finite t b =>
    match s, t with
    | false, false => decide (b < a)
    | false, true => decide (0 < a ∨ 0 < b)
    | true, false => false
    | true, true => decide (a < b)

/-- The rational value of a finite number (zero for the others). -/
def toRat : Float32 → ℚ
  | finite s m => (if s then -1 else 1) * (m : ℚ) / 2 ^ 149
  | _ => 0

/-- Finite and not a negative number (either zero counts). -/
def isFiniteNonneg : Float32 → Bool
  | finite s m => !s || m == 0
  | _ => false

end Float32

open Float32

/-- DirectXMath: `constexpr float XM_PI = 3.141592654f;`. -/
def XM_PI : Float32 := ofDecimal 3141592654 1000000000

/-- The wrap threshold `XM_PI * 2` of `Graphics::Update`. -/
def XM_PI_times_2 : Float32 := fmul XM_PI (ofInt 2)

/-- The increment `0.0005f`. -/
def rotIncrement : Float32 := ofDecimal 5 10000

/-- The member initialiser `float rot = 0.01f;`. -/
def rotInitial : Float32 := ofDecimal 1 100

/-- The first two statements of `Graphics::Update`:
`rot += 0.0005f; if (rot > XM_PI * 2) rot = 0.0f;`. -/
def advanceRot (rot : Float32) : Float32 :=
  let r := fadd rot rotIncrement
  if fgt r XM_PI_times_2 then finite false 0 else r

/-! ## The external matrix library -/

/-- The DirectXMath functions called by `Graphics::Update` and
`Graphics::Render`, over a type `V` of vectors (`XMVECTOR`) and a type `M` of
matrices (`XMMATRIX`).  `XMMatrixMultiply a b` is `a * b`. -/
structure DirectXMath (V M : Type) where
  XMVectorSet : Float32 → Float32 → Float32 → Float32 → V
  XMMatrixIdentity : M
  XMMatrixRotationAxis : V → Float32 → M
  XMMatrixTranslation : Float32 → Float32 → Float32 → M
  XMMatrixScaling : Float32 → Float32 → Float32 → M
  XMMatrixMultiply : M → M → M
  XMMatrixTranspose : M → M

/-- The two DirectXMath camera functions called by `Graphics::Initialize`. -/
structure DirectXCamera (V M : Type) where
  XMMatrixLookAtLH : V → V → V → M
  XMMatrixPerspectiveFovLH : Float32 → Float32 → Float32 → Float32 → M

/-! ## The renderer -/

/-- An interface pointer handed out by the device. -/
abbrev Handle := Nat

/-- A `ComPtr<T>`: null or an owned interface pointer. -/
abbrev ComPtr := Option Handle

/-- The struct `Settings` (`long` fields). -/
structure Settings where
  screenWidth : Int
  screenHeight : Int
  isFullscreen : Bool
  isVsyncEnabled : Bool
deriving DecidableEq, Repr

/-- The data members of `class Graphics`, in declaration order.
`m_cbPerObject` is the one field `wvpMatrix` of `ConstantBufferPerObject`. -/
structure Graphics (V M : Type) where
  m_pDevice : ComPtr
  m_pDeviceContext : ComPtr
  m_isVsyncEnabled : Bool
  m_pSwapChain : ComPtr
  m_pRtv : ComPtr
  m_pDepthStencilBuffer : ComPtr
  m_pDsv : ComPtr
  m_pVertexBuffer : ComPtr
  m_pVertexLayout : ComPtr
  m_pIndexBuffer : ComPtr
  m_pVertexShader : ComPtr
  m_pPixelShader : ComPtr
  m_pVsConstantBuffer : ComPtr
  m_cbPerObject : M
  cameraProjection : M
  cameraView : M
  cameraPosition : V
  cameraTarget : V
  cameraUp : V
  cube1World : M
  cube2World : M
  rotation : M
  scale : M
  translation : M
  rot : Float32
  m_pTextureBuffer : ComPtr
  m_pSrvTexture : ComPtr
  m_pSamplerState : ComPtr

namespace Graphics

variable {V M : Type}

/-- The factory `Graphics::GetInstance`, that is the constructor
`Graphics::Graphics() : m_isVsyncEnabled(false) { }` run on fresh storage
`raw`: the `ComPtr` members start null, `rot` takes its member initialiser
`0.01f`, vectors and matrices keep whatever `raw` holds. -/
def GetInstance (raw : Graphics V M) : Graphics V M :=
  { raw with
    m_pDevice := none, m_pDeviceContext := none, m_isVsyncEnabled := false,
    m_pSwapChain := none, m_pRtv := none, m_pDepthStencilBuffer := none,
    m_pDsv := none, m_pVertexBuffer := none, m_pVertexLayout := none,
    m_pIndexBuffer := none, m_pVertexShader := none, m_pPixelShader := none,
    m_pVsConstantBuffer := none, rot := rotInitial, m_pTextureBuffer := none,
    m_pSrvTexture := none, m_pSamplerState := none }

/-- The axis `XMVectorSet(0.0f, 1.0f, 0.0f, 0.0f)` of `Graphics::Update`. -/
def rotAxis (dx : DirectXMath V M) : V :=
  dx.XMVectorSet (ofDecimal 0 1) (ofDecimal 1 1) (ofDecimal 0 1) (ofDecimal 0 1)

/-- The method `Graphics::Update`. -/
def Update (dx : DirectXMath V M) (g : Graphics V M) : Graphics V M :=
  let rot := advanceRot g.rot
  let g := { g with rot := rot }
  let g := { g with cube1World := dx.XMMatrixIdentity }
  let axis := rotAxis dx
  let g := { g with rotation := dx.XMMatrixRotationAxis axis g.rot }
  let g := { g with
    translation := dx.XMMatrixTranslation (ofDecimal 0 1) (ofDecimal 0 1) (ofDecimal 4 1) }
  let g := { g with cube1World := dx.XMMatrixMultiply g.translation g.rotation }
  let g := { g with cube2World := dx.XMMatrixIdentity }
  let g := { g with rotation := dx.XMMatrixRotationAxis axis (fneg g.rot) }
  let g := { g with
    scale := dx.XMMatrixScaling (ofDecimal 13 10) (ofDecimal 13 10) (ofDecimal 13 10) }
  { g with cube2World := dx.XMMatrixMultiply g.rotation g.scale }

end Graphics

/-! ## One frame: the device commands of `Graphics::Render` -/

/-- A call made by `Graphics::Render` on the immediate context
(`m_pDeviceContext`) or, for `Present`, on the swap chain, with the arguments
that vary. -/
inductive Command (M : Type) where
  | ClearRenderTargetView (rtv : ComPtr) (color : List Float32)
  | ClearDepthStencilView (dsv : ComPtr) (clearFlags : Nat) (depth : Float32) (stencil : Nat)
  | UpdateSubresource (dst : ComPtr) (src : M)
  | VSSetConstantBuffers (startSlot : Nat) (buffers : List ComPtr)
  | PSSetShaderResources (startSlot : Nat) (views : List ComPtr)
  | PSSetSamplers (startSlot : Nat) (samplers : List ComPtr)
  | DrawIndexed (indexCount startIndexLocation : Nat) (baseVertexLocation : Int)
  | Present (syncInterval flags : Nat)

namespace Command

variable {M : Type}

/-- Is the command a `Present`? -/
def isPresent : Command M → Bool
  | Present _ _ => true
  | _ => false

/-- Is the command an `UpdateSubresource`? -/
def isUpdateSubresource : Command M → Bool
  | UpdateSubresource _ _ => true
  | _ => false

/-- Is the command a `DrawIndexed`? -/
def isDrawIndexed : Command M → Bool
  | DrawIndexed _ _ _ => true
  | _ => false

end Command

/-- The flags `D3D11_CLEAR_DEPTH | D3D11_CLEAR_STENCIL`. -/
def D3D11_CLEAR_DEPTH_STENCIL : Nat := 0x1 ||| 0x2

namespace Graphics

variable {V M : Type}

/-- The method `Graphics::Render`: the new object state (only `m_cbPerObject`
changes), the commands issued in order, and the return value.  `WinMain`
calls it only after a successful `Initialize`, so the context and the swap
chain it calls through are there. -/
def Render (dx : DirectXMath V M) (g : Graphics V M) :
    Graphics V M × List (Command M) × Bool :=
  let clearColor := [ofDecimal 1 1, ofDecimal 0 1, ofDecimal 1 1, ofDecimal 1 1]
  let cmds : List (Command M) :=
    [ Command.ClearRenderTargetView g.m_pRtv clearColor,
      Command.ClearDepthStencilView g.m_pDsv D3D11_CLEAR_DEPTH_STENCIL (ofDecimal 1 1) 0 ]
  let wvp := dx.XMMatrixMultiply (dx.XMMatrixMultiply g.cube1World g.cameraView) g.cameraProjection
  let g := { g with m_cbPerObject := dx.XMMatrixTranspose wvp }
  let ppConstantBuffers := [g.m_pVsConstantBuffer]
  let ppSrvTextures := [g.m_pSrvTexture]
  let ppSamplers := [g.m_pSamplerState]
  let cmds := cmds ++
    [ Command.UpdateSubresource g.m_pVsConstantBuffer g.m_cbPerObject,
      Command.VSSetConstantBuffers 0 ppConstantBuffers,
      Command.PSSetShaderResources 0 ppSrvTextures,
      Command.PSSetSamplers 0 ppSamplers,
      Command.DrawIndexed 36 0 0 ]
  let wvp := dx.XMMatrixMultiply (dx.XMMatrixMultiply g.cube2World g.cameraView) g.cameraProjection
  let g := { g with m_cbPerObject := dx.XMMatrixTranspose wvp }
  let cmds := cmds ++
    [ Command.UpdateSubresource g.m_pVsConstantBuffer g.m_cbPerObject,
      Command.VSSetConstantBuffers 0 ppConstantBuffers,
      Command.PSSetShaderResources 0 ppSrvTextures,
      Command.PSSetSamplers 0 ppSamplers,
      Command.DrawIndexed 36 0 0 ]
  let cmds := cmds ++ [Command.Present 0 0]
  (g, cmds, true)

end Graphics

/-- What the device holds that matters to a draw: the contents of each
buffer, the buffers bound to the vertex-shader constant-buffer slots, and a
log with one entry per `DrawIndexed`: its index count and the contents, at
that moment, of the buffer bound to slot 0. -/
structure DeviceState (M : Type) where
  bufferContents : Handle → Option M
  vsConstantBuffers : Nat → ComPtr
  draws : List (Nat × Option M)

namespace DeviceState

variable {M : Type}

/-- Bind `buffers` to consecutive slots starting at `startSlot`. -/
def bind (slots : Nat → ComPtr) (startSlot : Nat) : List ComPtr → Nat → ComPtr
  | [], i => slots i
  | b :: bs, i => if i = startSlot then b else bind slots (startSlot + 1) bs i

/-- The contents of the constant buffer a draw reads through slot 0. -/
def slot0Contents (d : DeviceState M) : Option M :=
  match d.vsConstantBuffers 0 with
  | some h => d.bufferContents h
  | none => none

/-- The effect of one command.  `UpdateSubresource` replaces the contents of
the destination buffer. -/
def exec (d : DeviceState M) : Command M → DeviceState M
  | Command.UpdateSubresource (some h) src =>
    { d with bufferContents := fun k => if k = h then some src else d.bufferContents k }
  | Command.VSSetConstantBuffers startSlot buffers =>
    { d with vsConstantBuffers := bind d.vsConstantBuffers startSlot buffers }
  | Command.DrawIndexed indexCount _ _ =>
    { d with draws := d.draws ++ [(indexCount, d.slot0Contents)] }
  | _ => d

/-- The effect of a command sequence, in order. -/
def run (d : DeviceState M) (cmds : List (Command M)) : DeviceState M :=
  cmds.foldl exec d

end DeviceState

/-! ## Teardown: `Graphics::Terminate` -/

/-- The fifteen `ComPtr` members of `Graphics`. -/
inductive Member where
  | m_pDevice
  | m_pDeviceContext
  | m_pSwapChain
  | m_pRtv
  | m_pDepthStencilBuffer
  | m_pDsv
  | m_pVertexBuffer
  | m_pVertexLayout
  | m_pIndexBuffer
  | m_pVertexShader
  | m_pPixelShader
  | m_pVsConstantBuffer
  | m_pTextureBuffer
  | m_pSrvTexture
  | m_pSamplerState
deriving DecidableEq, Repr

/-- One `Release` call: the member that held the pointer, and the pointer. -/
abbrev Release := Member × Handle

/-- The method `ComPtr::Reset` on member `who`: a non-null pointer is released
(appended to the log `released`); the member is null afterwards. -/
def ComPtr.Reset (who : Member) (p : ComPtr) (released : List Release) :
    ComPtr × List Release :=
  match p with
  | some h => (none, released ++ [(who, h)])
  | none => (none, released)

namespace Graphics

variable {V M : Type}

/-- The member `who` of the object. -/
def member (g : Graphics V M) : Member → ComPtr
  | Member.m_pDevice => g.m_pDevice
  | Member.m_pDeviceContext => g.m_pDeviceContext
  | Member.m_pSwapChain => g.m_pSwapChain
  | Member.m_pRtv => g.m_pRtv
  | Member.m_pDepthStencilBuffer => g.m_pDepthStencilBuffer
  | Member.m_pDsv => g.m_pDsv
  | Member.m_pVertexBuffer => g.m_pVertexBuffer
  | Member.m_pVertexLayout => g.m_pVertexLayout
  | Member.m_pIndexBuffer => g.m_pIndexBuffer
  | Member.m_pVertexShader => g.m_pVertexShader
  | Member.m_pPixelShader => g.m_pPixelShader
  | Member.m_pVsConstantBuffer => g.m_pVsConstantBuffer
  | Member.m_pTextureBuffer => g.m_pTextureBuffer
  | Member.m_pSrvTexture => g.m_pSrvTexture
  | Member.m_pSamplerState => g.m_pSamplerState

/-- The method `Graphics::Terminate`: the object afterwards and the `Release`
calls made, in order.  The destructor `Graphics::~Graphics` is a call of it. -/
def Terminate (g : Graphics V M) : Graphics V M × List Release :=
  let r : List Release := []
  let (p, r) := ComPtr.Reset Member.m_pSamplerState g.m_pSamplerState r
  let g := { g with m_pSamplerState := p }
  let (p, r) := ComPtr.Reset Member.m_pSrvTexture g.m_pSrvTexture r
  let g := { g with m_pSrvTexture := p }
  let (p, r) := ComPtr.Reset Member.m_pTextureBuffer g.m_pTextureBuffer r
  let g := { g with m_pTextureBuffer := p }
  let (p, r) := ComPtr.Reset Member.m_pVsConstantBuffer g.m_pVsConstantBuffer r
  let g := { g with m_pVsConstantBuffer := p }
  let (p, r) := ComPtr.Reset Member.m_pIndexBuffer g.m_pIndexBuffer r
  let g := { g with m_pIndexBuffer := p }
  let (p, r) := ComPtr.Reset Member.m_pVertexBuffer g.m_pVertexBuffer r
  let g := { g with m_pVertexBuffer := p }
  let (p, r) := ComPtr.Reset Member.m_pVertexLayout g.m_pVertexLayout r
  let g := { g with m_pVertexLayout := p }
  let (p, r) := ComPtr.Reset Member.m_pPixelShader g.m_pPixelShader r
  let g := { g with m_pPixelShader := p }
  let (p, r) := ComPtr.Reset Member.m_pVertexShader g.m_pVertexShader r
  let g := { g with m_pVertexShader := p }
  let (p, r) := ComPtr.Reset Member.m_pDsv g.m_pDsv r
  let g := { g with m_pDsv := p }
  let (p, r) := ComPtr.Reset Member.m_pDepthStencilBuffer g.m_pDepthStencilBuffer r
  let g := { g with m_pDepthStencilBuffer := p }
  let (p, r) := ComPtr.Reset Member.m_pRtv g.m_pRtv r
  let g := { g with m_pRtv := p }
  let (p, r) := ComPtr.Reset Member.m_pSwapChain g.m_pSwapChain r
  let g := { g with m_pSwapChain := p }
  let (p, r) := ComPtr.Reset Member.m_pDeviceContext g.m_pDeviceContext r
  let g := { g with m_pDeviceContext := p }
  let (p, r) := ComPtr.Reset Member.m_pDevice g.m_pDevice r
  let g := { g with m_pDevice := p }
  (g, r)

end Graphics

/-- All fifteen members, in declaration order. -/
def Member.all : List Member :=
  [ Member.m_pDevice, Member.m_pDeviceContext, Member.m_pSwapChain, Member.m_pRtv,
    Member.m_pDepthStencilBuffer, Member.m_pDsv, Member.m_pVertexBuffer,
    Member.m_pVertexLayout, Member.m_pIndexBuffer, Member.m_pVertexShader,
    Member.m_pPixelShader, Member.m_pVsConstantBuffer, Member.m_pTextureBuffer,
    Member.m_pSrvTexture, Member.m_pSamplerState ]

/-- The reference the object holds through member `who`, if any. -/
def Graphics.held {V M : Type} (g : Graphics V M) (who : Member) : List Release :=
  match g.member who with
  | some h => [(who, h)]
  | none => []

/-- The device resources the object still holds a reference to. -/
def Graphics.liveReferences {V M : Type} (g : Graphics V M) : List Release :=
  Member.all.flatMap g.held

/-- The members in the order in which `Graphics::Terminate` resets them. -/
def terminateOrder : List Member :=
  [ Member.m_pSamplerState, Member.m_pSrvTexture, Member.m_pTextureBuffer,
    Member.m_pVsConstantBuffer, Member.m_pIndexBuffer, Member.m_pVertexBuffer,
    Member.m_pVertexLayout, Member.m_pPixelShader, Member.m_pVertexShader, Member.m_pDsv,
    Member.m_pDepthStencilBuffer, Member.m_pRtv, Member.m_pSwapChain,
    Member.m_pDeviceContext, Member.m_pDevice ]

/-- Both `a` and `b` occur in `l`, and `a` first. -/
def occursBefore (l : List Member) (a b : Member) : Bool :=
  decide (a ∈ l ∧ b ∈ l ∧ l.indexOf a < l.indexOf b)

/-- Member `a` is released, and member `b` is released later. -/
def releasedBefore (log : List Release) (a b : Member) : Bool :=
  occursBefore (log.map Prod.fst) a b

/-- The sampler and the three views. -/
def Member.views : List Member :=
  [Member.m_pSamplerState, Member.m_pSrvTexture, Member.m_pDsv, Member.m_pRtv]

/-- The four buffers. -/
def Member.buffers : List Member :=
  [ Member.m_pVertexBuffer, Member.m_pIndexBuffer, Member.m_pVsConstantBuffer,
    Member.m_pDepthStencilBuffer ]

/-! ## Setup: `Graphics::Initialize` -/

/-- A result code. -/
abbrev HRESULT := Int

/-- The constant `S_OK`. -/
def S_OK : HRESULT := 0

/-- The macro `FAILED(hr)`: the code is negative. -/
def FAILED (hr : HRESULT) : Bool := decide (hr < 0)

/-- The macro `SUCCEEDED(hr)`. -/
def SUCCEEDED (hr : HRESULT) : Bool := decide (0 ≤ hr)

/-- The fallible calls of `Graphics::Initialize`, in program order. -/
inductive Step where
  | D3D11CreateDeviceAndSwapChain
  | GetBuffer
  | CreateRenderTargetView
  | CreateTexture2D
  | CreateDepthStencilView
  | D3DCompileFromFile_vs
  | CreateVertexShader
  | D3DCompileFromFile_ps
  | CreatePixelShader
  | CreateInputLayout
  | CreateBuffer_vertex
  | CreateBuffer_index
  | CreateBuffer_constant
  | CreateWICTextureFromFile
  | CreateSamplerState
deriving DecidableEq, Repr

/-- The device, the shader compiler, the texture loader and the C++ runtime
as seen by `Graphics::Initialize`: the result code of each fallible call, the
pointer each creating call stores into its member, the bytes of the
diagnostics blob (`pErrorMessages`, up to its terminating zero) a compile
call leaves behind, if it leaves one, and the conversion
`std::wstring_convert<std::codecvt_utf8<wchar_t>>::from_bytes`, which gives
`none` where it throws `std::range_error`. -/
structure Device where
  result : Step → HRESULT
  created : Member → ComPtr
  errorMessages : Step → Option (List Nat)
  from_bytes : List Nat → Option String

/-- What `Graphics::Initialize` does to the outside, in order. -/
inductive InitEvent where
  | call (s : Step)
  | MessageBox (text caption : String)
  | OMSetRenderTargets (rtvs : List ComPtr) (dsv : ComPtr)
  | IASetInputLayout (layout : ComPtr)
  | IASetPrimitiveTopology
  | VSSetShader (shader : ComPtr)
  | PSSetShader (shader : ComPtr)
  | IASetVertexBuffers (startSlot : Nat) (buffers : List ComPtr) (stride offset : Nat)
  | IASetIndexBuffer (buffer : ComPtr)
  | RSSetViewports (width height : Float32)
deriving DecidableEq, Repr

namespace InitEvent

/-- The fallible call behind an event, if it is one. -/
def step? : InitEvent → Option Step
  | call s => some s
  | _ => none

/-- Is the event an error dialog? -/
def isMessageBox : InitEvent → Bool
  | MessageBox _ _ => true
  | _ => false

end InitEvent

/-- Result of `Graphics::Initialize`: the returned code, or `none` when the
function is left by an exception and returns nothing; the object; the events
in order; and whether the division of the aspect ratio was performed with a
zero divisor. -/
structure InitOutcome (V M : Type) where
  retVal : Option HRESULT
  graphics : Graphics V M
  events : List InitEvent
  dividedByZero : Bool

namespace Graphics

variable {V M : Type}

/-- The method `Graphics::Initialize`.  When a shader fails to compile and
leaves diagnostics, these are converted with `from_bytes` before the dialog
is shown; where the conversion throws, the exception leaves the function:
no dialog is shown and nothing is returned. -/
def Initialize (dx : DirectXMath V M) (cam : DirectXCamera V M) (dev : Device)
    (settings : Settings) (g : Graphics V M) : InitOutcome V M :=
  let ev : List InitEvent := [InitEvent.call Step.D3D11CreateDeviceAndSwapChain]
  let retVal := dev.result Step.D3D11CreateDeviceAndSwapChain
  let g := { g with
    m_pSwapChain := dev.created Member.m_pSwapChain,
    m_pDevice := dev.created Member.m_pDevice,
    m_pDeviceContext := dev.created Member.m_pDeviceContext }
  if FAILED retVal then
    ⟨some retVal, g, ev ++ [InitEvent.MessageBox "Failed to create device/swap chain" "ERROR"], false⟩
  else
  let ev := ev ++ [InitEvent.call Step.GetBuffer]
  let retVal := dev.result Step.GetBuffer
  if FAILED retVal then
    ⟨some retVal, g, ev ++ [InitEvent.MessageBox "Failed to get back buffer" "ERROR"], false⟩
  else
  let ev := ev ++ [InitEvent.call Step.CreateRenderTargetView]
  let retVal := dev.result Step.CreateRenderTargetView
  let g := { g with m_pRtv := dev.created Member.m_pRtv }
  if FAILED retVal then
    ⟨some retVal, g, ev ++ [InitEvent.MessageBox "Failed to create rtv" "ERROR"], false⟩
  else
  let ev := ev ++ [InitEvent.call Step.CreateTexture2D]
  let retVal := dev.result Step.CreateTexture2D
  let g := { g with m_pDepthStencilBuffer := dev.created Member.m_pDepthStencilBuffer }
  if FAILED retVal then
    ⟨some retVal, g, ev ++ [InitEvent.MessageBox "Failed to create depth/stencil buffer" "ERROR"], false⟩
  else
  let ev := ev ++ [InitEvent.call Step.CreateDepthStencilView]
  let retVal := dev.result Step.CreateDepthStencilView
  let g := { g with m_pDsv := dev.created Member.m_pDsv }
  if FAILED retVal then
    ⟨some retVal, g, ev ++ [InitEvent.MessageBox "Failed to create dsv" "ERROR"], false⟩
  else
  let ev := ev ++ [InitEvent.OMSetRenderTargets [g.m_pRtv] g.m_pDsv]
  let ev := ev ++ [InitEvent.call Step.D3DCompileFromFile_vs]
  let retVal := dev.result Step.D3DCompileFromFile_vs
  if FAILED retVal then
    match dev.errorMessages Step.D3DCompileFromFile_vs with
    | some bytes =>
      match dev.from_bytes bytes with
      | some wstr => ⟨some retVal, g, ev ++ [InitEvent.MessageBox wstr "ERROR (VS)"], false⟩
      | none => ⟨none, g, ev, false⟩
    | none => ⟨some retVal, g, ev ++ [InitEvent.MessageBox "Error loading shader" "ERROR"], false⟩
  else
  let ev := ev ++ [InitEvent.call Step.CreateVertexShader]
  let retVal := dev.result Step.CreateVertexShader
  let g := { g with m_pVertexShader := dev.created Member.m_pVertexShader }
  if FAILED retVal then
    ⟨some retVal, g, ev ++ [InitEvent.MessageBox "Error creating vertex shader" "ERROR"], false⟩
  else
  let ev := ev ++ [InitEvent.call Step.D3DCompileFromFile_ps]
  let retVal := dev.result Step.D3DCompileFromFile_ps
  if FAILED retVal then
    match dev.errorMessages Step.D3DCompileFromFile_ps with
    | some bytes =>
      match dev.from_bytes bytes with
      | some wstr => ⟨some retVal, g, ev ++ [InitEvent.MessageBox wstr "ERROR (PS)"], false⟩
      | none => ⟨none, g, ev, false⟩
    | none =>
      ⟨some retVal, g, ev ++ [InitEvent.MessageBox "Error loading pixel shader" "ERROR"], false⟩
  else
  let ev := ev ++ [InitEvent.call Step.CreatePixelShader]
  let retVal := dev.result Step.CreatePixelShader
  let g := { g with m_pPixelShader := dev.created Member.m_pPixelShader }
  if FAILED retVal then
    ⟨some retVal, g, ev ++ [InitEvent.MessageBox "Error creating pixel shader" "ERROR"], false⟩
  else
  let ev := ev ++ [InitEvent.call Step.CreateInputLayout]
  let retVal := dev.result Step.CreateInputLayout
  let g := { g with m_pVertexLayout := dev.created Member.m_pVertexLayout }
  if FAILED retVal then
    ⟨some retVal, g, ev ++ [InitEvent.MessageBox "Error creating vertex layout" "ERROR"], false⟩
  else
  let ev := ev ++
    [ InitEvent.IASetInputLayout g.m_pVertexLayout, InitEvent.IASetPrimitiveTopology,
      InitEvent.VSSetShader g.m_pVertexShader, InitEvent.PSSetShader g.m_pPixelShader ]
  let ev := ev ++ [InitEvent.call Step.CreateBuffer_vertex]
  let retVal := dev.result Step.CreateBuffer_vertex
  let g := { g with m_pVertexBuffer := dev.created Member.m_pVertexBuffer }
  if FAILED retVal then
    ⟨some retVal, g, ev ++ [InitEvent.MessageBox "Error creating vertex buffer" "ERROR"], false⟩
  else
  let ev := ev ++ [InitEvent.IASetVertexBuffers 0 [g.m_pVertexBuffer] 20 0]
  let ev := ev ++ [InitEvent.call Step.CreateBuffer_index]
  let retVal := dev.result Step.CreateBuffer_index
  let g := { g with m_pIndexBuffer := dev.created Member.m_pIndexBuffer }
  if FAILED retVal then
    ⟨some retVal, g, ev ++ [InitEvent.MessageBox "Error creating index buffer" "ERROR"], false⟩
  else
  let ev := ev ++ [InitEvent.IASetIndexBuffer g.m_pIndexBuffer]
  let ev := ev ++ [InitEvent.call Step.CreateBuffer_constant]
  let retVal := dev.result Step.CreateBuffer_constant
  let g := { g with m_pVsConstantBuffer := dev.created Member.m_pVsConstantBuffer }
  if FAILED retVal then
    ⟨some retVal, g, ev ++ [InitEvent.MessageBox "Error creating constant buffer" "ERROR"], false⟩
  else
  let ev := ev ++ [InitEvent.call Step.CreateWICTextureFromFile]
  let retVal := dev.result Step.CreateWICTextureFromFile
  let g := { g with
    m_pTextureBuffer := dev.created Member.m_pTextureBuffer,
    m_pSrvTexture := dev.created Member.m_pSrvTexture }
  if FAILED retVal then
    ⟨some retVal, g, ev ++ [InitEvent.MessageBox "Error creating texture buffer" "ERROR"], false⟩
  else
  let ev := ev ++ [InitEvent.call Step.CreateSamplerState]
  let retVal := dev.result Step.CreateSamplerState
  let g := { g with m_pSamplerState := dev.created Member.m_pSamplerState }
  if FAILED retVal then
    ⟨some retVal, g, ev ++ [InitEvent.MessageBox "Error creating sampler state" "ERROR"], false⟩
  else
  let g := { g with
    cameraPosition :=
      dx.XMVectorSet (ofDecimal 0 1) (ofDecimal 3 1) (fneg (ofDecimal 8 1)) (ofDecimal 0 1) }
  let g := { g with
    cameraTarget := dx.XMVectorSet (ofDecimal 0 1) (ofDecimal 0 1) (ofDecimal 0 1) (ofDecimal 0 1) }
  let g := { g with
    cameraUp := dx.XMVectorSet (ofDecimal 0 1) (ofDecimal 1 1) (ofDecimal 0 1) (ofDecimal 0 1) }
  let g := { g with
    cameraView := cam.XMMatrixLookAtLH g.cameraPosition g.cameraTarget g.cameraUp }
  let aspect := fdiv (ofInt settings.screenWidth) (ofInt settings.screenHeight)
  let g := { g with
    cameraProjection :=
      cam.XMMatrixPerspectiveFovLH (fmul XM_PI (ofDecimal 4 10)) aspect.1
        (ofDecimal 1 1) (ofDecimal 1000 1) }
  let ev := ev ++
    [InitEvent.RSSetViewports (ofInt settings.screenWidth) (ofInt settings.screenHeight)]
  ⟨some retVal, g, ev, aspect.2⟩

end Graphics

/-- The fallible calls in program order. -/
def Step.all : List Step :=
  [ Step.D3D11CreateDeviceAndSwapChain, Step.GetBuffer, Step.CreateRenderTargetView,
    Step.CreateTexture2D, Step.CreateDepthStencilView, Step.D3DCompileFromFile_vs,
    Step.CreateVertexShader, Step.D3DCompileFromFile_ps, Step.CreatePixelShader,
    Step.CreateInputLayout, Step.CreateBuffer_vertex, Step.CreateBuffer_index,
    Step.CreateBuffer_constant, Step.CreateWICTextureFromFile, Step.CreateSamplerState ]

/-- The first call that fails on device `dev`, if any does. -/
def firstFailure (dev : Device) : Option Step :=
  Step.all.find? fun s => FAILED (dev.result s)

/-- The calls up to and including `s`, in program order. -/
def Step.upTo (s : Step) : List Step :=
  Step.all.takeWhile (fun t => decide (t ≠ s)) ++ [s]

/-- The error dialog that belongs to each fallible call: a fixed text, or,
for a compile call that leaves diagnostics, the converted diagnostics under
the caption of the shader stage; `none` when the diagnostics cannot be
converted, so that there is no text to show. -/
def dialogOf (dev : Device) : Step → Option InitEvent
  | Step.D3D11CreateDeviceAndSwapChain =>
    some (InitEvent.MessageBox "Failed to create device/swap chain" "ERROR")
  | Step.GetBuffer => some (InitEvent.MessageBox "Failed to get back buffer" "ERROR")
  | Step.CreateRenderTargetView => some (InitEvent.MessageBox "Failed to create rtv" "ERROR")
  | Step.CreateTexture2D => some (InitEvent.MessageBox "Failed to create depth/stencil buffer" "ERROR")
  | Step.CreateDepthStencilView => some (InitEvent.MessageBox "Failed to create dsv" "ERROR")
  | Step.D3DCompileFromFile_vs =>
    match dev.errorMessages Step.D3DCompileFromFile_vs with
    | none => some (InitEvent.MessageBox "Error loading shader" "ERROR")
    | some bytes => (dev.from_bytes bytes).map fun text => InitEvent.MessageBox text "ERROR (VS)"
  | Step.CreateVertexShader => some (InitEvent.MessageBox "Error creating vertex shader" "ERROR")
  | Step.D3DCompileFromFile_ps =>
    match dev.errorMessages Step.D3DCompileFromFile_ps with
    | none => some (InitEvent.MessageBox "Error loading pixel shader" "ERROR")
    | some bytes => (dev.from_bytes bytes).map fun text => InitEvent.MessageBox text "ERROR (PS)"
  | Step.CreatePixelShader => some (InitEvent.MessageBox "Error creating pixel shader" "ERROR")
  | Step.CreateInputLayout => some (InitEvent.MessageBox "Error creating vertex layout" "ERROR")
  | Step.CreateBuffer_vertex => some (InitEvent.MessageBox "Error creating vertex buffer" "ERROR")
  | Step.CreateBuffer_index => some (InitEvent.MessageBox "Error creating index buffer" "ERROR")
  | Step.CreateBuffer_constant => some (InitEvent.MessageBox "Error creating constant buffer" "ERROR")
  | Step.CreateWICTextureFromFile => some (InitEvent.MessageBox "Error creating texture buffer" "ERROR")
  | Step.CreateSamplerState => some (InitEvent.MessageBox "Error creating sampler state" "ERROR")

/-! ## The window procedure and the message loop -/

/-- The fields of `MSG` the program looks at. -/
structure MSG where
  message : Nat
  wParam : Nat
  lParam : Nat
deriving DecidableEq, Repr

/-- What a call of `PeekMessage` does: before it returns, the system delivers
the messages `sent` to the window (by other threads) to the window procedure;
it then returns a queued message, or reports that there is none. -/
inductive Peek where
  | message (sent : List MSG) (msg : MSG)
  | nothing (sent : List MSG)
deriving DecidableEq, Repr

/-- The messages delivered inside the call. -/
def Peek.sent : Peek → List MSG
  | Peek.message sent _ => sent
  | Peek.nothing sent => sent

/-- A vector of four rationals. -/
structure Vec4 where
  x : ℚ
  y : ℚ
  z : ℚ
  w : ℚ
deriving DecidableEq

/-- A matrix given by its four rows. -/
structure Mat4 where
  r0 : Vec4
  r1 : Vec4
  r2 : Vec4
  r3 : Vec4
deriving DecidableEq

/-- The row vector `v` times the matrix `b`. -/
def Vec4.mulMat (v : Vec4) (b : Mat4) : Vec4 :=
  ⟨v.x * b.r0.x + v.y * b.r1.x + v.z * b.r2.x + v.w * b.r3.x,
   v.x * b.r0.y + v.y * b.r1.y + v.z * b.r2.y + v.w * b.r3.y,
   v.x * b.r0.z + v.y * b.r1.z + v.z * b.r2.z + v.w * b.r3.z,
   v.x * b.r0.w + v.y * b.r1.w + v.z * b.r2.w + v.w * b.r3.w⟩

/-- The row-by-column product. -/
def Mat4.mul (a b : Mat4) : Mat4 :=
  ⟨a.r0.mulMat b, a.r1.mulMat b, a.r2.mulMat b, a.r3.mulMat b⟩

/-- The transposed matrix. -/
def Mat4.transpose (a : Mat4) : Mat4 :=
  ⟨⟨a.r0.x, a.r1.x, a.r2.x, a.r3.x⟩, ⟨a.r0.y, a.r1.y, a.r2.y, a.r3.y⟩,
   ⟨a.r0.z, a.r1.z, a.r2.z, a.r3.z⟩, ⟨a.r0.w, a.r1.w, a.r2.w, a.r3.w⟩⟩

/-- The sine series up to degree three. -/
def sinSeries (x : ℚ) : ℚ := x - x ^ 3 / 6

/-- The cosine series up to degree two. -/
def cosSeries (x : ℚ) : ℚ := 1 - x ^ 2 / 2

/-- The rotation about the unit axis `n` with sine `s` and cosine `c`, in the
row-vector convention of DirectXMath. -/
def Mat4.rotationNormal (n : Vec4) (s c : ℚ) : Mat4 :=
  ⟨⟨c + (1 - c) * n.x * n.x, (1 - c) * n.x * n.y + s * n.z, (1 - c) * n.x * n.z - s * n.y, 0⟩,
   ⟨(1 - c) * n.x * n.y - s * n.z, c + (1 - c) * n.y * n.y, (1 - c) * n.y * n.z + s * n.x, 0⟩,
   ⟨(1 - c) * n.x * n.z + s * n.y, (1 - c) * n.y * n.z - s * n.x, c + (1 - c) * n.z * n.z, 0⟩,
   ⟨0, 0, 0, 1⟩⟩

/-- The library over the rationals: the matrices DirectXMath documents, with
exact arithmetic, the angle functions cut to their leading terms, and the
rotation axis taken as given (the program passes a unit vector). -/
def rationalMath : DirectXMath Vec4 Mat4 where
  XMVectorSet x y z w := ⟨toRat x, toRat y, toRat z, toRat w⟩
  XMMatrixIdentity := ⟨⟨1, 0, 0, 0⟩, ⟨0, 1, 0, 0⟩, ⟨0, 0, 1, 0⟩, ⟨0, 0, 0, 1⟩⟩
  XMMatrixRotationAxis axis angle :=
    Mat4.rotationNormal axis (sinSeries (toRat angle)) (cosSeries (toRat angle))
  XMMatrixTranslation x y z :=
    ⟨⟨1, 0, 0, 0⟩, ⟨0, 1, 0, 0⟩, ⟨0, 0, 1, 0⟩, ⟨toRat x, toRat y, toRat z, 1⟩⟩
  XMMatrixScaling x y z :=
    ⟨⟨toRat x, 0, 0, 0⟩, ⟨0, toRat y, 0, 0⟩, ⟨0, 0, toRat z, 0⟩, ⟨0, 0, 0, 1⟩⟩
  XMMatrixMultiply := Mat4.mul
  XMMatrixTranspose := Mat4.transpose

/-- The zero vector. -/
def Vec4.zero : Vec4 := ⟨0, 0, 0, 0⟩

/-- The zero matrix. -/
def Mat4.zero : Mat4 := ⟨Vec4.zero, Vec4.zero, Vec4.zero, Vec4.zero⟩

/-- Storage whose vectors and matrices are all zero and whose pointers are
null. -/
def zeroStorage : Graphics Vec4 Mat4 where
  m_pDevice := none
  m_pDeviceContext := none
  m_isVsyncEnabled := false
  m_pSwapChain := none
  m_pRtv := none
  m_pDepthStencilBuffer := none
  m_pDsv := none
  m_pVertexBuffer := none
  m_pVertexLayout := none
  m_pIndexBuffer := none
  m_pVertexShader := none
  m_pPixelShader := none
  m_pVsConstantBuffer := none
  m_cbPerObject := Mat4.zero
  cameraProjection := Mat4.zero
  cameraView := Mat4.zero
  cameraPosition := Vec4.zero
  cameraTarget := Vec4.zero
  cameraUp := Vec4.zero
  cube1World := Mat4.zero
  cube2World := Mat4.zero
  rotation := Mat4.zero
  scale := Mat4.zero
  translation := Mat4.zero
  rot := finite false 0
  m_pTextureBuffer := none
  m_pSrvTexture := none
  m_pSamplerState := none

/-- A renderer as a successful `Initialize` leaves its pointers: every member
holds a resource of its own. -/
def sampleGraphics : Graphics Vec4 Mat4 :=
  { Graphics.GetInstance zeroStorage with
    m_pDevice := some 1, m_pDeviceContext := some 2, m_pSwapChain := some 3,
    m_pRtv := some 4, m_pDepthStencilBuffer := some 5, m_pDsv := some 6,
    m_pVertexBuffer := some 7, m_pVertexLayout := some 8, m_pIndexBuffer := some 9,
    m_pVertexShader := some 10, m_pPixelShader := some 11, m_pVsConstantBuffer := some 12,
    m_pTextureBuffer := some 13, m_pSrvTexture := some 14, m_pSamplerState := some 15 }

/-- The difference of two vectors. -/
def Vec4.sub (a b : Vec4) : Vec4 := ⟨a.x - b.x, a.y - b.y, a.z - b.z, a.w - b.w⟩

/-- The cross product of the first three components. -/
def Vec4.cross (a b : Vec4) : Vec4 :=
  ⟨a.y * b.z - a.z * b.y, a.z * b.x - a.x * b.z, a.x * b.y - a.y * b.x, 0⟩

/-- The dot product of the first three components. -/
def Vec4.dot (a b : Vec4) : ℚ := a.x * b.x + a.y * b.y + a.z * b.z

/-- The camera functions over the rationals, for evaluating
`Graphics::Initialize` on concrete input: the look-at matrix with its axes
left unnormalised (the rationals have no square roots) and the perspective
matrix with the series in place of the angle functions. -/
def rationalCamera : DirectXCamera Vec4 Mat4 where
  XMMatrixLookAtLH eye focus up :=
    let zaxis := focus.sub eye
    let xaxis := up.cross zaxis
    let yaxis := zaxis.cross xaxis
    ⟨⟨xaxis.x, yaxis.x, zaxis.x, 0⟩, ⟨xaxis.y, yaxis.y, zaxis.y, 0⟩,
     ⟨xaxis.z, yaxis.z, zaxis.z, 0⟩, ⟨-xaxis.dot eye, -yaxis.dot eye, -zaxis.dot eye, 1⟩⟩
  XMMatrixPerspectiveFovLH fov aspect nearZ farZ :=
    let height := cosSeries (toRat fov / 2) / sinSeries (toRat fov / 2)
    let width := height / toRat aspect
    let range := toRat farZ / (toRat farZ - toRat nearZ)
    ⟨⟨width, 0, 0, 0⟩, ⟨0, height, 0, 0⟩, ⟨0, 0, range, 1⟩,
     ⟨0, 0, -range * toRat nearZ, 0⟩⟩

/-- The conversion `from_bytes` on concrete input: UTF-8 decoding into the
16-bit code units a `wchar_t` holds on Windows; `none` where the bytes are
not UTF-8 (a byte that cannot start a character, a missing or malformed
continuation byte) or need more than 16 bits. -/
def fromBytesUtf8 : List Nat → Option (List Nat)
  | [] => some []
  | b0 :: rest =>
    if b0 < 0x80 then
      (fromBytesUtf8 rest).map fun cs => b0 :: cs
    else if 0xC0 ≤ b0 ∧ b0 < 0xE0 then
      match rest with
      | b1 :: rest1 =>
        if 0x80 ≤ b1 ∧ b1 < 0xC0 then
          (fromBytesUtf8 rest1).map fun cs => (b0 % 0x20 * 0x40 + b1 % 0x40) :: cs
        else none
      | [] => none
    else if 0xE0 ≤ b0 ∧ b0 < 0xF0 then
      match rest with
      | b1 :: b2 :: rest2 =>
        if 0x80 ≤ b1 ∧ b1 < 0xC0 ∧ 0x80 ≤ b2 ∧ b2 < 0xC0 then
          (fromBytesUtf8 rest2).map fun cs =>
            (b0 % 0x10 * 0x1000 + b1 % 0x40 * 0x40 + b2 % 0x40) :: cs
        else none
      | _ => none
    else none

/-- The converted text as a string. -/
def wstringOfBytes (bytes : List Nat) : Option String :=
  (fromBytesUtf8 bytes).map fun cs => String.mk (cs.map Char.ofNat)

/-- A device on which every call succeeds with `S_OK` and hands out the
pointers of `sampleGraphics`; the compilers leave no diagnostics. -/
def okDevice : Device where
  result _ := S_OK
  created := sampleGraphics.member
  errorMessages _ := none
  from_bytes := wstringOfBytes

/-- The result code `E_FAIL` (`0x80004005` as a signed 32-bit number). -/
def E_FAIL : HRESULT := -2147467259

/-- A device on which the vertex shader fails to compile with `E_FAIL` and
the compiler leaves diagnostics that are not UTF-8: the single byte `0xFF`
(as in a message that quotes a file path in the ANSI code page).  Every
other call succeeds. -/
def undecodableDevice : Device where
  result s := if s = Step.D3DCompileFromFile_vs then E_FAIL else S_OK
  created := sampleGraphics.member
  errorMessages s := if s = Step.D3DCompileFromFile_vs then some [0xFF] else none
  from_bytes := wstringOfBytes

/-! ## A certificate for the angle sequence -/

/-- Magnitude of the increment `0.0005f`. -/
def incMag : Nat := 8589935 * 2 ^ 115

/-- Magnitude of the threshold `XM_PI * 2`. -/
def thresholdMag : Nat := 13176795 * 2 ^ 128

/-- Magnitude of the greatest binary32 number below `XM_PI * 2`. -/
def belowTwoPiMag : Nat := 13176794 * 2 ^ 128

/-- A stretch of calls of `advanceRot`: one call whose sum has spacing
exponent `s`, or `j` calls in a row that all stay in the binade of spacing
exponent `s`, where every call adds the same multiple of `2^s`. -/
inductive Leg where
  | step (s : Nat)
  | run (s j : Nat)
deriving DecidableEq, Repr

/-- The multiple of `2^s` that one call adds inside the binade of spacing
exponent `s`: the increment rounded to that spacing. -/
def runDelta (s : Nat) : Nat :=
  if 2 * (incMag % 2 ^ s) < 2 ^ s then incMag / 2 ^ s else incMag / 2 ^ s + 1

/-- The magnitude after one call from magnitude `m`, when the checks that
make `Leg.step s` valid hold. -/
def stepResult (m s : Nat) : Option Nat :=
  if m ≤ belowTwoPiMag ∧ 2 ^ 24 ≤ m + incMag ∧ 2 ^ (23 + s) ≤ m + incMag ∧
      m + incMag < 2 ^ (24 + s) then
    if thresholdMag < roundAt s (m + incMag) 1 then
      if roundAt s (m + incMag) 1 < overflowMag then some 0 else none
    else if roundAt s (m + incMag) 1 ≤ belowTwoPiMag then some (roundAt s (m + incMag) 1)
    else none
  else none

/-- The magnitude after `j` calls from magnitude `m`, when the checks that
make `Leg.run s j` valid hold. -/
def runResult (m s j : Nat) : Option Nat :=
  if 2 * (incMag % 2 ^ s) ≠ 2 ^ s ∧ m % 2 ^ s = 0 ∧ 2 ^ 24 ≤ m + incMag ∧
      2 ^ (23 + s) ≤ m + incMag ∧
      m + j * (runDelta s * 2 ^ s) + incMag < 2 ^ (24 + s) + runDelta s * 2 ^ s ∧
      m + j * (runDelta s * 2 ^ s) ≤ belowTwoPiMag then
    some (m + j * (runDelta s * 2 ^ s))
  else none

/-- The magnitude after one leg. -/
def Leg.result (m : Nat) : Leg → Option Nat
  | Leg.step s => stepResult m s
  | Leg.run s j => runResult m s j

/-- The number of calls in one leg. -/
def Leg.calls : Leg → Nat
  | Leg.step _ => 1
  | Leg.run _ j => j

/-- The magnitude after a sequence of legs, when every leg is valid. -/
def legsResult : List Leg → Nat → Option Nat
  | [], m => some m
  | l :: ls, m =>
    match l.result m with
    | some k => legsResult ls k
    | none => none

/-- The number of calls in a sequence of legs. -/
def legsCalls : List Leg → Nat
  | [] => 0
  | l :: ls => l.calls + legsCalls ls

/-- The calls from `0.01f` up to and including the first wrap. -/
def legsFromInitial : List Leg :=
  [ Leg.run 119 11, Leg.step 120, Leg.run 120 30, Leg.step 121, Leg.run 121 61,
    Leg.run 122 125, Leg.step 123, Leg.run 123 250, Leg.step 124, Leg.run 124 499,
    Leg.run 125 999, Leg.step 126, Leg.run 126 2000, Leg.step 127, Leg.run 127 3999,
    Leg.step 128, Leg.run 128 4563, Leg.step 128 ]

/-- The calls from zero up to and including the next wrap. -/
def legsFromZero : List Leg :=
  [ Leg.run 115 1, Leg.step 116, Leg.step 116, Leg.run 117 4, Leg.step 118,
    Leg.run 118 7, Leg.step 119, Leg.run 119 15, Leg.run 120 31, Leg.step 121,
    Leg.run 121 61, Leg.run 122 125, Leg.step 123, Leg.run 123 250, Leg.step 124,
    Leg.run 124 499, Leg.run 125 999, Leg.step 126, Leg.run 126 2000, Leg.step 127,
    Leg.run 127 3999, Leg.step 128, Leg.run 128 4563, Leg.step 128 ]

/-! ## The cube geometry of `Graphics::Initialize` -/

/-- The struct `XMFLOAT3`. -/
structure XMFLOAT3 where
  x : Float32
  y : Float32
  z : Float32
deriving DecidableEq, Repr

/-- The struct `XMFLOAT2`. -/
structure XMFLOAT2 where
  x : Float32
  y : Float32
deriving DecidableEq, Repr

/-- The struct `Model::Vertex`. -/
structure Model.Vertex where
  position : XMFLOAT3
  texcoord : XMFLOAT2
deriving DecidableEq, Repr

/-- The literal `1.0f`. -/
def plusOne : Float32 := ofDecimal 1 1

/-- The literal `-1.0f`. -/
def minusOne : Float32 := fneg (ofDecimal 1 1)

/-- The literal `0.0f`. -/
def plusZero : Float32 := ofDecimal 0 1

/-- The array `vertices` of `Graphics::Initialize`, the contents of the
vertex buffer. -/
def Graphics.vertices : List Model.Vertex :=
  [ ⟨⟨minusOne, minusOne, minusOne⟩, ⟨plusZero, plusOne⟩⟩,
    ⟨⟨minusOne, plusOne, minusOne⟩, ⟨plusZero, plusZero⟩⟩,
    ⟨⟨plusOne, plusOne, minusOne⟩, ⟨plusOne, plusZero⟩⟩,
    ⟨⟨plusOne, minusOne, minusOne⟩, ⟨plusOne, plusOne⟩⟩,

    ⟨⟨minusOne, minusOne, plusOne⟩, ⟨plusZero, plusOne⟩⟩,
    ⟨⟨plusOne, minusOne, plusOne⟩, ⟨plusZero, plusZero⟩⟩,
    ⟨⟨plusOne, plusOne, plusOne⟩, ⟨plusOne, plusZero⟩⟩,
    ⟨⟨minusOne, plusOne, plusOne⟩, ⟨plusOne, plusOne⟩⟩,

    ⟨⟨minusOne, plusOne, minusOne⟩, ⟨plusZero, plusOne⟩⟩,
    ⟨⟨minusOne, plusOne, plusOne⟩, ⟨plusZero, plusZero⟩⟩,
    ⟨⟨plusOne, plusOne, plusOne⟩, ⟨plusOne, plusZero⟩⟩,
    ⟨⟨plusOne, plusOne, minusOne⟩, ⟨plusOne, plusOne⟩⟩,

    ⟨⟨minusOne, minusOne, minusOne⟩, ⟨plusZero, plusOne⟩⟩,
    ⟨⟨plusOne, minusOne, minusOne⟩, ⟨plusZero, plusZero⟩⟩,
    ⟨⟨plusOne, minusOne, plusOne⟩, ⟨plusOne, plusZero⟩⟩,
    ⟨⟨minusOne, minusOne, plusOne⟩, ⟨plusOne, plusOne⟩⟩,

    ⟨⟨minusOne, minusOne, plusOne⟩, ⟨plusZero, plusOne⟩⟩,
    ⟨⟨minusOne, plusOne, plusOne⟩, ⟨plusZero, plusZero⟩⟩,
    ⟨⟨minusOne, plusOne, minusOne⟩, ⟨plusOne, plusZero⟩⟩,
    ⟨⟨minusOne, minusOne, minusOne⟩, ⟨plusOne, plusOne⟩⟩,

    ⟨⟨plusOne, minusOne, minusOne⟩, ⟨plusZero, plusOne⟩⟩,
    ⟨⟨plusOne, plusOne, minusOne⟩, ⟨plusZero, plusZero⟩⟩,
    ⟨⟨plusOne, plusOne, plusOne⟩, ⟨plusOne, plusZero⟩⟩,
    ⟨⟨plusOne, minusOne, plusOne⟩, ⟨plusOne, plusOne⟩⟩ ]

/-- The array `indices` of `Graphics::Initialize`, the contents of the index
buffer. -/
def Graphics.indices : List Nat :=
  [  0,  1,  2,
     0,  2,  3,

     4,  5,  6,
     4,  6,  7,

     8,  9, 10,
     8, 10, 11,

    12, 13, 14,
    12, 14, 15,

    16, 17, 18,
    16, 18, 19,

    20, 21, 22,
    20, 22, 23 ]

/-- The corner of the cube with the given signs: `true` is the coordinate
`-1`, `false` the coordinate `+1`. -/
def cubeCorner (negX negY negZ : Bool) : XMFLOAT3 :=
  ⟨if negX then minusOne else plusOne, if negY then minusOne else plusOne,
   if negZ then minusOne else plusOne⟩

/-- The four vertices of face `f`: positions `4f .. 4f+3` of the vertex
list. -/
def faceVertices (f : Nat) : List Model.Vertex :=
  (Graphics.vertices.drop (4 * f)).take 4

/-- The six indices of face `f`: positions `6f .. 6f+5` of the index list. -/
def faceIndices (f : Nat) : List Nat :=
  (Graphics.indices.drop (6 * f)).take 6

/-- How many vertices of a list sit at position `p`. -/
def countAt (p : XMFLOAT3) (vs : List Model.Vertex) : Nat :=
  vs.countP fun v => decide (v.position = p)

/-! ## Evaluating the rounding -/

/-- The spacing exponent of a magnitude between `2^(23+s)` and `2^(24+s)`. -/
theorem shiftOf_eq (f s : Nat) (h24 : 2 ^ 24 ≤ f) (h1 : 2 ^ (23 + s) ≤ f)
    (h2 : f < 2 ^ (24 + s)) : shiftOf f = s := by
  have hf : f ≠ 0 := by
    have : 0 < 2 ^ 24 := Nat.two_pow_pos _
    omega
  have hlog : Nat.log2 f = 23 + s := by
    apply Nat.le_antisymm
    · have : Nat.log2 f < 23 + s + 1 := by
        rw [Nat.log2_lt hf]
        have e : 23 + s + 1 = 24 + s := by omega
        rw [e]
        exact h2
      omega
    · rw [Nat.le_log2 hf]
      exact h1
  unfold shiftOf
  rw [if_neg (by omega), hlog]
  omega

/-- Rounding with the spacing exponent given. -/
theorem roundRatio_of_shift (p q s : Nat) (h24 : 2 ^ 24 ≤ p / q) (h1 : 2 ^ (23 + s) ≤ p / q)
    (h2 : p / q < 2 ^ (24 + s)) : roundRatio p q = roundAt s p q := by
  unfold roundRatio
  rw [shiftOf_eq _ s h24 h1 h2]

/-- The literal `0.0005f` is `0x3A03126F`. -/
theorem rotIncrement_eq : rotIncrement = finite false incMag := by
  unfold rotIncrement ofDecimal
  rw [roundRatio_of_shift _ _ 115 (by decide!) (by decide!) (by decide!)]
  decide!

/-- The literal `0.01f` is `0x3C23D70A`. -/
theorem rotInitial_eq : rotInitial = finite false (10737418 * 2 ^ 119) := by
  unfold rotInitial ofDecimal
  rw [roundRatio_of_shift _ _ 119 (by decide!) (by decide!) (by decide!)]
  decide!

/-- The literal `3.141592654f` is `0x40490FDB`. -/
theorem XM_PI_eq : XM_PI = finite false (13176795 * 2 ^ 127) := by
  unfold XM_PI ofDecimal
  rw [roundRatio_of_shift _ _ 127 (by decide!) (by decide!) (by decide!)]
  decide!

/-- The integer two converts exactly. -/
theorem ofInt_two_eq : ofInt 2 = finite false (2 ^ 150) := by
  unfold ofInt
  rw [roundRatio_of_shift _ _ 127 (by decide!) (by decide!) (by decide!)]
  decide!

/-- The threshold `XM_PI * 2` is `0x40C90FDB`. -/
theorem XM_PI_times_2_eq : XM_PI_times_2 = finite false thresholdMag := by
  unfold XM_PI_times_2
  rw [XM_PI_eq, ofInt_two_eq]
  unfold fmul
  simp only
  rw [roundRatio_of_shift _ _ 128 (by decide!) (by decide!) (by decide!)]
  decide!

/-! ## The angle sequence of `Graphics::Update` -/

/-- One call on a non-negative finite angle, with the spacing exponent of
the sum given. -/
theorem advanceRot_at (m s : Nat) (h24 : 2 ^ 24 ≤ m + incMag)
    (h1 : 2 ^ (23 + s) ≤ m + incMag) (h2 : m + incMag < 2 ^ (24 + s)) :
    advanceRot (finite false m) =
      if fgt (pack false (roundAt s (m + incMag) 1)) (finite false thresholdMag)
      then finite false 0 else pack false (roundAt s (m + incMag) 1) := by
  unfold advanceRot
  rw [rotIncrement_eq, XM_PI_times_2_eq]
  simp only [fadd, if_true]
  rw [roundRatio_of_shift _ _ s (by rw [Nat.div_one]; exact h24) (by rw [Nat.div_one]; exact h1)
    (by rw [Nat.div_one]; exact h2)]

/-- One call that lands on magnitude `k` at most `belowTwoPiMag`. -/
theorem advanceRot_below (m s k : Nat) (h24 : 2 ^ 24 ≤ m + incMag)
    (h1 : 2 ^ (23 + s) ≤ m + incMag) (h2 : m + incMag < 2 ^ (24 + s))
    (hk : roundAt s (m + incMag) 1 = k) (hB : k ≤ belowTwoPiMag) :
    advanceRot (finite false m) = finite false k := by
  have ho : belowTwoPiMag < overflowMag := by decide!
  have ht : belowTwoPiMag < thresholdMag := by decide!
  rw [advanceRot_at m s h24 h1 h2, hk]
  have hp : pack false k = finite false k := by
    unfold pack
    rw [if_pos (by omega)]
  rw [hp]
  have hg : fgt (finite false k) (finite false thresholdMag) = false := by
    simp only [fgt, decide_eq_false_iff_not]
    omega
  rw [hg]
  rfl

/-- A valid `Leg.step` is one call of `advanceRot`. -/
theorem stepResult_sound (m s r : Nat) (h : stepResult m s = some r) :
    advanceRot (finite false m) = finite false r ∧ m ≤ belowTwoPiMag ∧ r ≤ belowTwoPiMag := by
  unfold stepResult at h
  split at h
  · next hc =>
    obtain ⟨hm, h24, h1, h2⟩ := hc
    split at h
    · next hT =>
      split at h
      · next ho =>
        simp only [Option.some.injEq] at h
        subst h
        refine ⟨?_, hm, Nat.zero_le _⟩
        rw [advanceRot_at m s h24 h1 h2]
        have hp : pack false (roundAt s (m + incMag) 1) = finite false (roundAt s (m + incMag) 1) := by
          unfold pack
          rw [if_pos ho]
        rw [hp]
        have hg : fgt (finite false (roundAt s (m + incMag) 1)) (finite false thresholdMag) = true := by
          simp only [fgt, decide_eq_true_eq]
          exact hT
        rw [hg]
        rfl
      · exact absurd h (by simp)
    · split at h
      · next hB =>
        simp only [Option.some.injEq] at h
        subst h
        exact ⟨advanceRot_below m s _ h24 h1 h2 rfl hB, hm, hB⟩
      · exact absurd h (by simp)
  · exact absurd h (by simp)

/-- Rounding the sum of a multiple of `2^s` and the increment, away from a
tie: the multiple grows by `runDelta s`. -/
theorem roundAt_aligned (s a : Nat) (hne : 2 * (incMag % 2 ^ s) ≠ 2 ^ s) :
    roundAt s (a * 2 ^ s + incMag) 1 = (a + runDelta s) * 2 ^ s := by
  have hpos : 0 < 2 ^ s := Nat.two_pow_pos s
  have hq : (a * 2 ^ s + incMag) / 2 ^ s = a + incMag / 2 ^ s := by
    rw [Nat.add_comm (a * 2 ^ s), Nat.add_mul_div_right _ _ hpos, Nat.add_comm]
  have hr : (a * 2 ^ s + incMag) % 2 ^ s = incMag % 2 ^ s := by
    rw [Nat.add_comm (a * 2 ^ s), Nat.add_mul_mod_self_right]
  unfold roundAt runDelta
  simp only [Nat.one_mul, hq, hr]
  by_cases hlt : 2 * (incMag % 2 ^ s) < 2 ^ s
  · rw [if_pos hlt, if_pos hlt]
  · rw [if_neg hlt, if_neg hlt, if_pos (by omega)]
    rw [Nat.add_assoc]

/-- A valid `Leg.run` is `j` calls of `advanceRot`, each adding the same
amount, none of them leaving the range. -/
theorem runResult_sound (m s j r : Nat) (h : runResult m s j = some r) :
    r = m + j * (runDelta s * 2 ^ s) ∧ r ≤ belowTwoPiMag ∧
    ∀ i, i ≤ j → advanceRot^[i] (finite false m) = finite false (m + i * (runDelta s * 2 ^ s)) := by
  unfold runResult at h
  split at h
  · next hc =>
    obtain ⟨hne, hal, h24, h1, h2, hB⟩ := hc
    simp only [Option.some.injEq] at h
    subst h
    refine ⟨rfl, hB, ?_⟩
    intro i
    induction i with
    | zero =>
      intro _
      simp
    | succ i ih =>
      intro hi
      have hij : i + 1 ≤ j := hi
      rw [Function.iterate_succ_apply', ih (by omega)]
      obtain ⟨a, ha⟩ : ∃ a, m = a * 2 ^ s := by
        refine ⟨m / 2 ^ s, ?_⟩
        have := Nat.div_add_mod m (2 ^ s)
        rw [hal] at this
        rw [Nat.mul_comm]
        omega
      have hstep : (i + 1) * (runDelta s * 2 ^ s) ≤ j * (runDelta s * 2 ^ s) :=
        Nat.mul_le_mul_right _ hij
      have hsucc : (i + 1) * (runDelta s * 2 ^ s) = i * (runDelta s * 2 ^ s) + runDelta s * 2 ^ s := by
        ring
      have hk : roundAt s (m + i * (runDelta s * 2 ^ s) + incMag) 1 =
          m + (i + 1) * (runDelta s * 2 ^ s) := by
        have e1 : m + i * (runDelta s * 2 ^ s) = (a + i * runDelta s) * 2 ^ s := by
          rw [ha]
          ring
        rw [e1, roundAt_aligned s _ hne, ha]
        ring
      exact advanceRot_below _ s _ (by omega) (by omega) (by omega) hk (by omega)
  · exact absurd h (by simp)

/-- A valid leg from a magnitude in range: every iterate along the leg is a
non-negative finite number in range, and the last has the magnitude the leg
reports. -/
theorem Leg.result_sound (l : Leg) (m k : Nat) (h : l.result m = some k)
    (hm : m ≤ belowTwoPiMag) :
    advanceRot^[l.calls] (finite false m) = finite false k ∧ k ≤ belowTwoPiMag ∧
    ∀ i, i ≤ l.calls →
      ∃ a, a ≤ belowTwoPiMag ∧ advanceRot^[i] (finite false m) = finite false a := by
  cases l with
  | step s =>
    obtain ⟨h1, _, h3⟩ := stepResult_sound m s k h
    refine ⟨by simpa [Leg.calls] using h1, h3, ?_⟩
    intro i hi
    have hi1 : i = 0 ∨ i = 1 := by
      simp only [Leg.calls] at hi
      omega
    rcases hi1 with rfl | rfl
    · exact ⟨m, hm, rfl⟩
    · exact ⟨k, h3, by simpa using h1⟩
  | run s j =>
    obtain ⟨h1, h2, h3⟩ := runResult_sound m s j k h
    refine ⟨by rw [h1]; exact h3 j (Nat.le_refl _), h2, ?_⟩
    intro i hi
    simp only [Leg.calls] at hi
    refine ⟨m + i * (runDelta s * 2 ^ s), ?_, h3 i hi⟩
    have : i * (runDelta s * 2 ^ s) ≤ j * (runDelta s * 2 ^ s) := Nat.mul_le_mul_right _ hi
    omega

/-- A valid sequence of legs from a magnitude in range describes the
iterates of `advanceRot`. -/
theorem legsResult_sound (ls : List Leg) : ∀ m r : Nat,
    legsResult ls m = some r → m ≤ belowTwoPiMag →
    advanceRot^[legsCalls ls] (finite false m) = finite false r ∧
    ∀ i, i ≤ legsCalls ls →
      ∃ a, a ≤ belowTwoPiMag ∧ advanceRot^[i] (finite false m) = finite false a := by
  induction ls with
  | nil =>
    intro m r h hm
    simp only [legsResult, Option.some.injEq] at h
    subst h
    refine ⟨rfl, ?_⟩
    intro i hi
    have : i = 0 := by
      simp only [legsCalls] at hi
      omega
    subst this
    exact ⟨m, hm, rfl⟩
  | cons l ls ih =>
    intro m r h hm
    simp only [legsResult] at h
    split at h
    · next k hk =>
      obtain ⟨hlast, hkB, hall⟩ := Leg.result_sound l m k hk hm
      obtain ⟨hlast2, hall2⟩ := ih k r h hkB
      refine ⟨?_, ?_⟩
      · simp only [legsCalls]
        rw [Nat.add_comm, Function.iterate_add_apply, hlast, hlast2]
      · intro i hi
        simp only [legsCalls] at hi
        by_cases hil : i ≤ l.calls
        · exact hall i hil
        · have e : i = (i - l.calls) + l.calls := by omega
          rw [e, Function.iterate_add_apply, hlast]
          exact hall2 _ (by omega)
    · exact absurd h (by simp)

/-- From `0.01f` the angle stays in range for 12545 calls, the last of which
wraps it to zero. -/
theorem legsFromInitial_ok :
    legsResult legsFromInitial (10737418 * 2 ^ 119) = some 0 ∧
    legsCalls legsFromInitial = 12545 := by
  decide!

/-- From zero the angle stays in range for 12565 calls, the last of which
wraps it to zero again. -/
theorem legsFromZero_ok :
    legsResult legsFromZero 0 = some 0 ∧ legsCalls legsFromZero = 12565 := by
  decide!

/-- Every iterate from zero is a non-negative finite number in range. -/
theorem advanceRot_iterate_zero (K : Nat) :
    ∃ a, a ≤ belowTwoPiMag ∧ advanceRot^[K] (finite false 0) = finite false a := by
  obtain ⟨hlast, hall⟩ := legsResult_sound legsFromZero 0 0 legsFromZero_ok.1 (Nat.zero_le _)
  rw [legsFromZero_ok.2] at hlast hall
  have hfix : ∀ q : Nat, advanceRot^[12565 * q] (finite false 0) = finite false 0 := by
    intro q
    rw [Function.iterate_mul]
    exact Function.iterate_fixed hlast q
  have hK : K = K % 12565 + 12565 * (K / 12565) := by omega
  rw [hK, Function.iterate_add_apply, hfix]
  exact hall _ (by omega)

/-- Every iterate from `0.01f` is a non-negative finite number in range. -/
theorem advanceRot_iterate_initial (N : Nat) :
    ∃ a, a ≤ belowTwoPiMag ∧ advanceRot^[N] rotInitial = finite false a := by
  rw [rotInitial_eq]
  obtain ⟨hlast, hall⟩ :=
    legsResult_sound legsFromInitial _ 0 legsFromInitial_ok.1 (by decide!)
  rw [legsFromInitial_ok.2] at hlast hall
  by_cases hN : N ≤ 12545
  · exact hall N hN
  · have hK : N = (N - 12545) + 12545 := by omega
    rw [hK, Function.iterate_add_apply, hlast]
    exact advanceRot_iterate_zero _

/-- A magnitude in range is a value below `2 * π`. -/
theorem toRat_lt_two_pi (a : Nat) (h : a ≤ belowTwoPiMag) :
    ((toRat (finite false a) : ℚ) : ℝ) < 2 * Real.pi := by
  have hpi := Real.pi_gt_d20
  have ha : (a : ℝ) ≤ 13176794 * 2 ^ 128 := by
    have : (a : ℝ) ≤ ((13176794 * 2 ^ 128 : ℕ) : ℝ) := by
      exact_mod_cast h
    rw [Nat.cast_mul, Nat.cast_pow] at this
    exact_mod_cast this
  have hval : ((toRat (finite false a) : ℚ) : ℝ) = (a : ℝ) / 2 ^ 149 := by
    simp [toRat]
  rw [hval]
  have h2 : (a : ℝ) / 2 ^ 149 ≤ 13176794 * 2 ^ 128 / 2 ^ 149 :=
    div_le_div_of_nonneg_right ha (by positivity)
  have h3 : (13176794 * 2 ^ 128 / 2 ^ 149 : ℝ) < 2 * 3.14159265358979323846 := by
    norm_num
  linarith

/-- The angle after `N` calls of `Graphics::Update` is `advanceRot` iterated
`N` times on the angle before. -/
theorem Graphics.rot_iterate_Update {V M : Type} (dx : DirectXMath V M) (g : Graphics V M)
    (N : Nat) : ((Graphics.Update dx)^[N] g).rot = advanceRot^[N] g.rot := by
  induction N with
  | zero => rfl
  | succ n ih =>
    rw [Function.iterate_succ_apply', Function.iterate_succ_apply', ← ih]
    rfl

/-! ## Claims about `Graphics::Update` -/

/-- Negation is exact: the value changes sign and nothing else. -/
theorem toRat_fneg (x : Float32) : toRat (fneg x) = -toRat x := by
  cases x with
  | finite s m => cases s <;> simp [fneg, toRat, neg_div]
  | inf s => simp [fneg, toRat]
  | nan => simp [fneg, toRat]

/-- C1: for every number `N` of calls of `Graphics::Update` on a freshly
constructed `Graphics` (angle `0.01f`), the angle `rot` is a finite number
with `0 ≤ rot < 2 * π`; it never exceeds nor equals the binary32 threshold
`XM_PI * 2` of the wrap test. -/
theorem Graphics.Update_rot_within_turn {V M : Type} (dx : DirectXMath V M)
    (raw : Graphics V M) (N : Nat) :
    isFiniteNonneg ((Graphics.Update dx)^[N] (Graphics.GetInstance raw)).rot = true ∧
    fgt ((Graphics.Update dx)^[N] (Graphics.GetInstance raw)).rot XM_PI_times_2 = false ∧
    ((Graphics.Update dx)^[N] (Graphics.GetInstance raw)).rot ≠ XM_PI_times_2 ∧
    (0 : ℝ) ≤ ((toRat ((Graphics.Update dx)^[N] (Graphics.GetInstance raw)).rot : ℚ) : ℝ) ∧
    ((toRat ((Graphics.Update dx)^[N] (Graphics.GetInstance raw)).rot : ℚ) : ℝ) < 2 * Real.pi := by
  have hrot : ((Graphics.Update dx)^[N] (Graphics.GetInstance raw)).rot =
      advanceRot^[N] rotInitial := by
    rw [Graphics.rot_iterate_Update]
    rfl
  obtain ⟨a, ha, hval⟩ := advanceRot_iterate_initial N
  have ht : belowTwoPiMag < thresholdMag := by decide!
  rw [hrot, hval, XM_PI_times_2_eq]
  refine ⟨by simp [isFiniteNonneg], ?_, ?_, ?_, toRat_lt_two_pi a ha⟩
  · simp only [fgt, decide_eq_false_iff_not]
    omega
  · intro h
    simp only [finite.injEq, true_and] at h
    omega
  · have hval : ((toRat (finite false a) : ℚ) : ℝ) = (a : ℝ) / 2 ^ 149 := by
      simp [toRat]
    rw [hval]
    positivity

/-- C2: after every call of `Graphics::Update`, from any state, cube 1 is
built from the rotation about the axis (0,1,0) by the angle `rot` the call
leaves behind (after increment and wrap), and cube 2 from the rotation about
the same axis by `-rot`, whose value is exactly the negative of `rot`. -/
theorem Graphics.Update_opposite_angles {V M : Type} (dx : DirectXMath V M)
    (g : Graphics V M) :
    (Graphics.Update dx g).rot = advanceRot g.rot ∧
    (Graphics.Update dx g).cube1World =
      dx.XMMatrixMultiply (dx.XMMatrixTranslation (ofDecimal 0 1) (ofDecimal 0 1) (ofDecimal 4 1))
        (dx.XMMatrixRotationAxis
          (dx.XMVectorSet (ofDecimal 0 1) (ofDecimal 1 1) (ofDecimal 0 1) (ofDecimal 0 1))
          (Graphics.Update dx g).rot) ∧
    (Graphics.Update dx g).cube2World =
      dx.XMMatrixMultiply
        (dx.XMMatrixRotationAxis
          (dx.XMVectorSet (ofDecimal 0 1) (ofDecimal 1 1) (ofDecimal 0 1) (ofDecimal 0 1))
          (fneg (Graphics.Update dx g).rot))
        (dx.XMMatrixScaling (ofDecimal 13 10) (ofDecimal 13 10) (ofDecimal 13 10)) ∧
    toRat (fneg (Graphics.Update dx g).rot) = -toRat (Graphics.Update dx g).rot ∧
    fneg (fneg (Graphics.Update dx g).rot) = (Graphics.Update dx g).rot := by
  refine ⟨rfl, rfl, rfl, toRat_fneg _, ?_⟩
  cases (Graphics.Update dx g).rot <;> simp [fneg]

/-- The literal `0.0f`. -/
theorem ofDecimal_zero : ofDecimal 0 1 = finite false 0 := by decide!

/-- The literal `1.0f`. -/
theorem ofDecimal_one : ofDecimal 1 1 = finite false (2 ^ 149) := by
  unfold ofDecimal
  rw [roundRatio_of_shift _ _ 126 (by decide!) (by decide!) (by decide!)]
  decide!

/-- The literal `4.0f`. -/
theorem ofDecimal_four : ofDecimal 4 1 = finite false (2 ^ 151) := by
  unfold ofDecimal
  rw [roundRatio_of_shift _ _ 128 (by decide!) (by decide!) (by decide!)]
  decide!

/-- The angle after the first call on a fresh object: `0.0105f`. -/
theorem advanceRot_rotInitial : advanceRot rotInitial = finite false (11274289 * 2 ^ 119) := by
  rw [rotInitial_eq]
  exact advanceRot_below _ 119 _ (by decide!) (by decide!) (by decide!) (by decide!) (by decide!)

/-- In the exact library, the last row of `translation * rotation` carries
the sine of the angle. -/
theorem rationalMath_translation_rotation (a : Float32) :
    (rationalMath.XMMatrixMultiply
      (rationalMath.XMMatrixTranslation (ofDecimal 0 1) (ofDecimal 0 1) (ofDecimal 4 1))
      (rationalMath.XMMatrixRotationAxis
        (rationalMath.XMVectorSet (ofDecimal 0 1) (ofDecimal 1 1) (ofDecimal 0 1) (ofDecimal 0 1)) a)
      ).r3.x = 4 * sinSeries (toRat a) := by
  rw [ofDecimal_zero, ofDecimal_one, ofDecimal_four]
  simp [rationalMath, Mat4.mul, Vec4.mulMat, Mat4.rotationNormal, toRat]
  norm_num

/-- In the exact library, the last row of `rotation * translation` is that of
the translation. -/
theorem rationalMath_rotation_translation (a : Float32) :
    (rationalMath.XMMatrixMultiply
      (rationalMath.XMMatrixRotationAxis
        (rationalMath.XMVectorSet (ofDecimal 0 1) (ofDecimal 1 1) (ofDecimal 0 1) (ofDecimal 0 1)) a)
      (rationalMath.XMMatrixTranslation (ofDecimal 0 1) (ofDecimal 0 1) (ofDecimal 4 1))
      ).r3.x = 0 := by
  rw [ofDecimal_zero, ofDecimal_one, ofDecimal_four]
  simp [rationalMath, Mat4.mul, Vec4.mulMat, Mat4.rotationNormal, toRat]

/-- C10, as stated, fails: after the first call of `Graphics::Update` on a
fresh object, evaluated in the exact library, `cube1World` is not
`rotation * translation`.  Its last row holds the translation turned by the
angle, `(4 sin, 0, 4 cos, 1)`, not the translation `(0, 0, 4, 1)` itself. -/
theorem Graphics.Update_cube1World_ne_rotation_mul_translation :
    (Graphics.Update rationalMath (Graphics.GetInstance zeroStorage)).cube1World ≠
      rationalMath.XMMatrixMultiply
        (rationalMath.XMMatrixRotationAxis
          (rationalMath.XMVectorSet (ofDecimal 0 1) (ofDecimal 1 1) (ofDecimal 0 1) (ofDecimal 0 1))
          (Graphics.Update rationalMath (Graphics.GetInstance zeroStorage)).rot)
        (rationalMath.XMMatrixTranslation (ofDecimal 0 1) (ofDecimal 0 1) (ofDecimal 4 1)) := by
  intro h
  have hrot : (Graphics.Update rationalMath (Graphics.GetInstance zeroStorage)).rot =
      finite false (11274289 * 2 ^ 119) := by
    rw [← advanceRot_rotInitial]
    rfl
  have hcube : (Graphics.Update rationalMath (Graphics.GetInstance zeroStorage)).cube1World =
      rationalMath.XMMatrixMultiply
        (rationalMath.XMMatrixTranslation (ofDecimal 0 1) (ofDecimal 0 1) (ofDecimal 4 1))
        (rationalMath.XMMatrixRotationAxis
          (rationalMath.XMVectorSet (ofDecimal 0 1) (ofDecimal 1 1) (ofDecimal 0 1) (ofDecimal 0 1))
          (Graphics.Update rationalMath (Graphics.GetInstance zeroStorage)).rot) := rfl
  rw [hcube] at h
  have h30 := congrArg (fun m : Mat4 => m.r3.x) h
  simp only [rationalMath_translation_rotation, rationalMath_rotation_translation] at h30
  rw [hrot] at h30
  norm_num [sinSeries, toRat] at h30

/-- C10, amended: after every call of `Graphics::Update`, `cube1World` is
`translation * rotation` (the translation by (0, 0, 4) first, then the
rotation about the Y axis by the current angle: the cube orbits), and
`cube2World` is `rotation(-rot) * scale` with the uniform scaling by 1.3;
both depend only on the angle, not on the rest of the previous state. -/
theorem Graphics.Update_world_matrices {V M : Type} (dx : DirectXMath V M)
    (g other : Graphics V M) :
    (Graphics.Update dx g).cube1World =
      dx.XMMatrixMultiply (dx.XMMatrixTranslation (ofDecimal 0 1) (ofDecimal 0 1) (ofDecimal 4 1))
        (dx.XMMatrixRotationAxis (Graphics.rotAxis dx) (advanceRot g.rot)) ∧
    (Graphics.Update dx g).cube2World =
      dx.XMMatrixMultiply (dx.XMMatrixRotationAxis (Graphics.rotAxis dx) (fneg (advanceRot g.rot)))
        (dx.XMMatrixScaling (ofDecimal 13 10) (ofDecimal 13 10) (ofDecimal 13 10)) ∧
    (Graphics.Update dx { other with rot := g.rot }).cube1World = (Graphics.Update dx g).cube1World ∧
    (Graphics.Update dx { other with rot := g.rot }).cube2World = (Graphics.Update dx g).cube2World :=
  ⟨rfl, rfl, rfl, rfl⟩

/-! ## Claims about `Graphics::Render` -/

/-- C3: among the commands of one call of `Graphics::Render`, `Present` is
issued exactly once and is the last command; everything before it holds both
`UpdateSubresource` calls and both `DrawIndexed` calls of the frame. -/
theorem Graphics.Render_present_last {V M : Type} (dx : DirectXMath V M) (g : Graphics V M) :
    (Graphics.Render dx g).2.1.countP Command.isPresent = 1 ∧
    (Graphics.Render dx g).2.1.getLast? = some (Command.Present 0 0) ∧
    ∃ before : List (Command M),
      (Graphics.Render dx g).2.1 = before ++ [Command.Present 0 0] ∧
      before.countP Command.isPresent = 0 ∧
      before.countP Command.isUpdateSubresource = 2 ∧
      before.countP Command.isDrawIndexed = 2 := by
  refine ⟨rfl, rfl, _, rfl, rfl, rfl, rfl⟩

/-- C9: one call of `Graphics::Render`, for any matrices and any prior
contents of the device, draws cube 1 and then cube 2, 36 indices each; the
constant buffer read by the first draw holds exactly
`transpose(cube1World * cameraView * cameraProjection)` and the one read by
the second exactly `transpose(cube2World * cameraView * cameraProjection)`
(the second upload replaces the first); and the call returns true. -/
theorem Graphics.Render_draws {V M : Type} (dx : DirectXMath V M) (g : Graphics V M)
    (d : DeviceState M) (h : Handle) (hcb : g.m_pVsConstantBuffer = some h) :
    (DeviceState.run d (Graphics.Render dx g).2.1).draws =
      d.draws ++
        [ (36, some (dx.XMMatrixTranspose
            (dx.XMMatrixMultiply (dx.XMMatrixMultiply g.cube1World g.cameraView)
              g.cameraProjection))),
          (36, some (dx.XMMatrixTranspose
            (dx.XMMatrixMultiply (dx.XMMatrixMultiply g.cube2World g.cameraView)
              g.cameraProjection))) ] ∧
    (Graphics.Render dx g).2.1.map Command.isDrawIndexed =
      [false, false, false, false, false, false, true, false, false, false, false, true, false] ∧
    (Graphics.Render dx g).2.2 = true := by
  refine ⟨?_, rfl, rfl⟩
  simp [Graphics.Render, DeviceState.run, DeviceState.exec, DeviceState.bind,
    DeviceState.slot0Contents, hcb]

/-- The frame drawn after one `Update` of a renderer holding all its
resources, in the exact library. -/
theorem Graphics.Render_draws_witness :
    (Graphics.Update rationalMath sampleGraphics).m_pVsConstantBuffer = some 12 ∧
    ((DeviceState.run ⟨fun _ => some Mat4.zero, fun _ => none, []⟩
      (Graphics.Render rationalMath (Graphics.Update rationalMath sampleGraphics)).2.1).draws =
      [] ++
        [ (36, some (rationalMath.XMMatrixTranspose
            (rationalMath.XMMatrixMultiply
              (rationalMath.XMMatrixMultiply
                (Graphics.Update rationalMath sampleGraphics).cube1World
                (Graphics.Update rationalMath sampleGraphics).cameraView)
              (Graphics.Update rationalMath sampleGraphics).cameraProjection))),
          (36, some (rationalMath.XMMatrixTranspose
            (rationalMath.XMMatrixMultiply
              (rationalMath.XMMatrixMultiply
                (Graphics.Update rationalMath sampleGraphics).cube2World
                (Graphics.Update rationalMath sampleGraphics).cameraView)
              (Graphics.Update rationalMath sampleGraphics).cameraProjection))) ] ∧
    (Graphics.Render rationalMath (Graphics.Update rationalMath sampleGraphics)).2.1.map
        Command.isDrawIndexed =
      [false, false, false, false, false, false, true, false, false, false, false, true, false] ∧
    (Graphics.Render rationalMath (Graphics.Update rationalMath sampleGraphics)).2.2 = true) :=
  ⟨rfl, Graphics.Render_draws rationalMath (Graphics.Update rationalMath sampleGraphics)
    ⟨fun _ => some Mat4.zero, fun _ => none, []⟩ 12 rfl⟩

/-! ## Claims about `Graphics::Terminate` -/

/-- The method `ComPtr::Reset` nulls the member and appends what it held. -/
theorem ComPtr.Reset_eq (who : Member) (p : ComPtr) (released : List Release) :
    ComPtr.Reset who p released =
      (none, released ++ (match p with | some h => [(who, h)] | none => [])) := by
  cases p <;> simp [ComPtr.Reset]

/-- The releases of `Graphics::Terminate`: what each member holds, in the
order `terminateOrder`. -/
theorem Graphics.Terminate_log {V M : Type} (g : Graphics V M) :
    (Graphics.Terminate g).2 = terminateOrder.flatMap g.held := by
  simp only [Graphics.Terminate, ComPtr.Reset_eq, terminateOrder, List.flatMap_cons,
    List.flatMap_nil, Graphics.held, Graphics.member, List.nil_append, List.append_nil,
    List.append_assoc]

/-- After `Graphics::Terminate` every member is null. -/
theorem Graphics.Terminate_member {V M : Type} (g : Graphics V M) (who : Member) :
    (Graphics.Terminate g).1.member who = none := by
  cases who <;> simp [Graphics.Terminate, ComPtr.Reset_eq, Graphics.member]

/-- The members released, in order: those of `l` that are not null. -/
theorem Graphics.held_names {V M : Type} (g : Graphics V M) (l : List Member) :
    (l.flatMap g.held).map Prod.fst = l.filter fun who => (g.member who).isSome := by
  induction l with
  | nil => rfl
  | cons a l ih =>
    rw [List.flatMap_cons, List.map_append, ih, List.filter_cons]
    cases hm : g.member a <;> simp [Graphics.held, hm]

/-- C4: from every state of the object (fully set up, partly set up, or
already torn down), `Graphics::Terminate` leaves each of the fifteen
resource members null, so that the object holds no reference to a device
resource; a second call changes nothing and releases nothing. -/
theorem Graphics.Terminate_all_null {V M : Type} (g : Graphics V M) :
    (∀ who : Member, (Graphics.Terminate g).1.member who = none) ∧
    (∀ who : Member, who ∈ Member.all) ∧ Member.all.length = 15 ∧
    (Graphics.Terminate g).1.liveReferences = [] ∧
    Graphics.Terminate (Graphics.Terminate g).1 = ((Graphics.Terminate g).1, []) := by
  refine ⟨Graphics.Terminate_member g, ?_, rfl, ?_, ?_⟩
  · intro who
    cases who <;> decide
  · simp [Graphics.liveReferences, Member.all, Graphics.held, Graphics.Terminate_member]
  · simp [Graphics.Terminate, ComPtr.Reset_eq]

/-- C5, as stated, fails on a renderer holding all fifteen resources: the
depth-stencil view is released after the vertex buffer, the render-target
view after the depth-stencil buffer, and the swap chain before both the
device context and the device. -/
theorem Graphics.Terminate_not_claimed_order :
    releasedBefore (Graphics.Terminate sampleGraphics).2 Member.m_pDsv Member.m_pVertexBuffer
      = false ∧
    releasedBefore (Graphics.Terminate sampleGraphics).2 Member.m_pRtv
      Member.m_pDepthStencilBuffer = false ∧
    releasedBefore (Graphics.Terminate sampleGraphics).2 Member.m_pDevice Member.m_pSwapChain
      = false ∧
    releasedBefore (Graphics.Terminate sampleGraphics).2 Member.m_pDeviceContext
      Member.m_pSwapChain = false ∧
    ¬ ((∀ v ∈ Member.views, ∀ b ∈ Member.buffers,
          releasedBefore (Graphics.Terminate sampleGraphics).2 v b = true) ∧
        (∀ b ∈ Member.buffers, ∀ d ∈ [Member.m_pDevice, Member.m_pDeviceContext],
          releasedBefore (Graphics.Terminate sampleGraphics).2 b d = true) ∧
        (∀ d ∈ [Member.m_pDevice, Member.m_pDeviceContext],
          releasedBefore (Graphics.Terminate sampleGraphics).2 d Member.m_pSwapChain = true)) := by
  have hlog : (Graphics.Terminate sampleGraphics).2.map Prod.fst = terminateOrder := by
    rw [Graphics.Terminate_log, Graphics.held_names]
    rfl
  unfold releasedBefore
  rw [hlog]
  decide

/-- C5, amended: on a renderer holding all fifteen resources,
`Graphics::Terminate` releases them in the fixed order sampler,
shader-resource view, texture, constant buffer, index buffer, vertex buffer,
input layout, pixel shader, vertex shader, depth-stencil view, depth-stencil
buffer, render-target view, swap chain, device context, device.  So the
sampler and the shader-resource view go before every buffer, every buffer
before the device context and the device, the depth-stencil view before the
depth-stencil buffer, and the swap chain before the device context, which
goes before the device. -/
theorem Graphics.Terminate_release_order {V M : Type} (g : Graphics V M)
    (hfull : ∀ who : Member, (g.member who).isSome = true) :
    (Graphics.Terminate g).2.map Prod.fst = terminateOrder ∧
    (∀ v ∈ [Member.m_pSamplerState, Member.m_pSrvTexture], ∀ b ∈ Member.buffers,
      releasedBefore (Graphics.Terminate g).2 v b = true) ∧
    (∀ b ∈ Member.buffers, ∀ d ∈ [Member.m_pDeviceContext, Member.m_pDevice],
      releasedBefore (Graphics.Terminate g).2 b d = true) ∧
    releasedBefore (Graphics.Terminate g).2 Member.m_pDsv Member.m_pDepthStencilBuffer = true ∧
    releasedBefore (Graphics.Terminate g).2 Member.m_pSwapChain Member.m_pDeviceContext = true ∧
    releasedBefore (Graphics.Terminate g).2 Member.m_pDeviceContext Member.m_pDevice = true := by
  have hlog : (Graphics.Terminate g).2.map Prod.fst = terminateOrder := by
    rw [Graphics.Terminate_log, Graphics.held_names]
    simp [hfull]
  unfold releasedBefore
  rw [hlog]
  exact ⟨rfl, by decide, by decide, by decide, by decide, by decide⟩

/-- The release order on the sample renderer. -/
theorem Graphics.Terminate_release_order_witness :
    (∀ who : Member, (sampleGraphics.member who).isSome = true) ∧
    ((Graphics.Terminate sampleGraphics).2.map Prod.fst = terminateOrder ∧
    (∀ v ∈ [Member.m_pSamplerState, Member.m_pSrvTexture], ∀ b ∈ Member.buffers,
      releasedBefore (Graphics.Terminate sampleGraphics).2 v b = true) ∧
    (∀ b ∈ Member.buffers, ∀ d ∈ [Member.m_pDeviceContext, Member.m_pDevice],
      releasedBefore (Graphics.Terminate sampleGraphics).2 b d = true) ∧
    releasedBefore (Graphics.Terminate sampleGraphics).2 Member.m_pDsv
      Member.m_pDepthStencilBuffer = true ∧
    releasedBefore (Graphics.Terminate sampleGraphics).2 Member.m_pSwapChain
      Member.m_pDeviceContext = true ∧
    releasedBefore (Graphics.Terminate sampleGraphics).2 Member.m_pDeviceContext
      Member.m_pDevice = true) :=
  ⟨fun who => by cases who <;> rfl,
    Graphics.Terminate_release_order sampleGraphics (fun who => by cases who <;> rfl)⟩

/-! ## Claims about `Graphics::Initialize` -/

/-- A result code succeeds exactly when it does not fail. -/
theorem SUCCEEDED_iff (hr : HRESULT) : SUCCEEDED hr = true ↔ FAILED hr = false := by
  simp [SUCCEEDED, FAILED]

/-- A property of every fallible call is a property of each of the fifteen. -/
theorem Step.forall_iff (P : Step → Prop) : (∀ s, P s) ↔
    P Step.D3D11CreateDeviceAndSwapChain ∧ P Step.GetBuffer ∧ P Step.CreateRenderTargetView ∧
    P Step.CreateTexture2D ∧ P Step.CreateDepthStencilView ∧ P Step.D3DCompileFromFile_vs ∧
    P Step.CreateVertexShader ∧ P Step.D3DCompileFromFile_ps ∧ P Step.CreatePixelShader ∧
    P Step.CreateInputLayout ∧ P Step.CreateBuffer_vertex ∧ P Step.CreateBuffer_index ∧
    P Step.CreateBuffer_constant ∧ P Step.CreateWICTextureFromFile ∧
    P Step.CreateSamplerState := by
  constructor
  · intro h
    exact ⟨h _, h _, h _, h _, h _, h _, h _, h _, h _, h _, h _, h _, h _, h _, h _⟩
  · rintro ⟨h1, h2, h3, h4, h5, h6, h7, h8, h9, h10, h11, h12, h13, h14, h15⟩ s
    cases s <;> assumption

/-- The outcome of `Graphics::Initialize` for every behaviour of the device,
the compilers and the conversion.  The calls made are those up to and
including the first failing one (all fifteen when none fails).  When the
failing call has a dialog to show, the code returned is that of the call, and
its dialog is the only one shown and the last thing done.  When it has none,
the diagnostics of a failed compilation cannot be converted: nothing is
returned and no dialog is shown.  A success code is returned exactly when
every call succeeds. -/
theorem Graphics.Initialize_outcome {V M : Type} (dx : DirectXMath V M)
    (cam : DirectXCamera V M) (dev : Device) (settings : Settings) (g : Graphics V M) :
    (match firstFailure dev with
      | some s =>
        (Graphics.Initialize dx cam dev settings g).events.filterMap InitEvent.step?
          = Step.upTo s ∧
        (match dialogOf dev s with
          | some d =>
            (Graphics.Initialize dx cam dev settings g).retVal = some (dev.result s) ∧
            (Graphics.Initialize dx cam dev settings g).events.filter InitEvent.isMessageBox
              = [d] ∧
            (Graphics.Initialize dx cam dev settings g).events.getLast? = some d
          | none =>
            (Graphics.Initialize dx cam dev settings g).retVal = none ∧
            (Graphics.Initialize dx cam dev settings g).events.filter InitEvent.isMessageBox
              = [])
      | none =>
        (Graphics.Initialize dx cam dev settings g).retVal
          = some (dev.result Step.CreateSamplerState) ∧
        (Graphics.Initialize dx cam dev settings g).events.filter InitEvent.isMessageBox = [] ∧
        (Graphics.Initialize dx cam dev settings g).events.filterMap InitEvent.step?
          = Step.all) ∧
    ((∃ hr, (Graphics.Initialize dx cam dev settings g).retVal = some hr ∧ SUCCEEDED hr = true) ↔
      ∀ s : Step, FAILED (dev.result s) = false) := by
  rw [Step.forall_iff]
  unfold firstFailure Step.all
  by_cases h1 : FAILED (dev.result Step.D3D11CreateDeviceAndSwapChain) = true
  · simp [
      Graphics.Initialize, h1, Step.upTo, Step.all, dialogOf, InitEvent.isMessageBox,
      InitEvent.step?, SUCCEEDED_iff]
  by_cases h2 : FAILED (dev.result Step.GetBuffer) = true
  · simp [
      Graphics.Initialize, h1, h2, Step.upTo, Step.all, dialogOf, InitEvent.isMessageBox,
      InitEvent.step?, SUCCEEDED_iff]
  by_cases h3 : FAILED (dev.result Step.CreateRenderTargetView) = true
  · simp [
      Graphics.Initialize, h1, h2, h3, Step.upTo, Step.all, dialogOf, InitEvent.isMessageBox,
      InitEvent.step?, SUCCEEDED_iff]
  by_cases h4 : FAILED (dev.result Step.CreateTexture2D) = true
  · simp [
      Graphics.Initialize, h1, h2, h3, h4, Step.upTo, Step.all, dialogOf,
      InitEvent.isMessageBox, InitEvent.step?, SUCCEEDED_iff]
  by_cases h5 : FAILED (dev.result Step.CreateDepthStencilView) = true
  · simp [
      Graphics.Initialize, h1, h2, h3, h4, h5, Step.upTo, Step.all, dialogOf,
      InitEvent.isMessageBox, InitEvent.step?, SUCCEEDED_iff]
  by_cases h6 : FAILED (dev.result Step.D3DCompileFromFile_vs) = true
  · cases hE : dev.errorMessages Step.D3DCompileFromFile_vs with
    | none =>
      simp [
        Graphics.Initialize, h1, h2, h3, h4, h5, h6, Step.upTo, Step.all, dialogOf,
        InitEvent.isMessageBox, InitEvent.step?, SUCCEEDED_iff, hE]
    | some bytes =>
      cases hB : dev.from_bytes bytes with
      | none =>
        simp [
          Graphics.Initialize, h1, h2, h3, h4, h5, h6, Step.upTo, Step.all, dialogOf,
          InitEvent.isMessageBox, InitEvent.step?, SUCCEEDED_iff, hE, hB]
      | some text =>
        simp [
          Graphics.Initialize, h1, h2, h3, h4, h5, h6, Step.upTo, Step.all, dialogOf,
          InitEvent.isMessageBox, InitEvent.step?, SUCCEEDED_iff, hE, hB]
  by_cases h7 : FAILED (dev.result Step.CreateVertexShader) = true
  · simp [
      Graphics.Initialize, h1, h2, h3, h4, h5, h6, h7, Step.upTo, Step.all, dialogOf,
      InitEvent.isMessageBox, InitEvent.step?, SUCCEEDED_iff]
  by_cases h8 : FAILED (dev.result Step.D3DCompileFromFile_ps) = true
  · cases hE : dev.errorMessages Step.D3DCompileFromFile_ps with
    | none =>
      simp [
        Graphics.Initialize, h1, h2, h3, h4, h5, h6, h7, h8, Step.upTo, Step.all, dialogOf,
        InitEvent.isMessageBox, InitEvent.step?, SUCCEEDED_iff, hE]
    | some bytes =>
      cases hB : dev.from_bytes bytes with
      | none =>
        simp [
          Graphics.Initialize, h1, h2, h3, h4, h5, h6, h7, h8, Step.upTo, Step.all, dialogOf,
          InitEvent.isMessageBox, InitEvent.step?, SUCCEEDED_iff, hE, hB]
      | some text =>
        simp [
          Graphics.Initialize, h1, h2, h3, h4, h5, h6, h7, h8, Step.upTo, Step.all, dialogOf,
          InitEvent.isMessageBox, InitEvent.step?, SUCCEEDED_iff, hE, hB]
  by_cases h9 : FAILED (dev.result Step.CreatePixelShader) = true
  · simp [
      Graphics.Initialize, h1, h2, h3, h4, h5, h6, h7, h8, h9, Step.upTo, Step.all, dialogOf,
      InitEvent.isMessageBox, InitEvent.step?, SUCCEEDED_iff]
  by_cases h10 : FAILED (dev.result Step.CreateInputLayout) = true
  · simp [
      Graphics.Initialize, h1, h2, h3, h4, h5, h6, h7, h8, h9, h10, Step.upTo, Step.all,
      dialogOf, InitEvent.isMessageBox, InitEvent.step?, SUCCEEDED_iff]
  by_cases h11 : FAILED (dev.result Step.CreateBuffer_vertex) = true
  · simp [
      Graphics.Initialize, h1, h2, h3, h4, h5, h6, h7, h8, h9, h10, h11, Step.upTo, Step.all,
      dialogOf, InitEvent.isMessageBox, InitEvent.step?, SUCCEEDED_iff]
  by_cases h12 : FAILED (dev.result Step.CreateBuffer_index) = true
  · simp [
      Graphics.Initialize, h1, h2, h3, h4, h5, h6, h7, h8, h9, h10, h11, h12, Step.upTo,
      Step.all, dialogOf, InitEvent.isMessageBox, InitEvent.step?, SUCCEEDED_iff]
  by_cases h13 : FAILED (dev.result Step.CreateBuffer_constant) = true
  · simp [
      Graphics.Initialize, h1, h2, h3, h4, h5, h6, h7, h8, h9, h10, h11, h12, h13, Step.upTo,
      Step.all, dialogOf, InitEvent.isMessageBox, InitEvent.step?, SUCCEEDED_iff]
  by_cases h14 : FAILED (dev.result Step.CreateWICTextureFromFile) = true
  · simp [
      Graphics.Initialize, h1, h2, h3, h4, h5, h6, h7, h8, h9, h10, h11, h12, h13, h14,
      Step.upTo, Step.all, dialogOf, InitEvent.isMessageBox, InitEvent.step?, SUCCEEDED_iff]
  by_cases h15 : FAILED (dev.result Step.CreateSamplerState) = true
  · simp [
      Graphics.Initialize, h1, h2, h3, h4, h5, h6, h7, h8, h9, h10, h11, h12, h13, h14, h15,
      Step.upTo, Step.all, dialogOf, InitEvent.isMessageBox, InitEvent.step?, SUCCEEDED_iff]
  simp [
    Graphics.Initialize, h1, h2, h3, h4, h5, h6, h7, h8, h9, h10, h11, h12, h13, h14, h15,
    Step.all, InitEvent.isMessageBox, InitEvent.step?, SUCCEEDED_iff]

/-- C6 holds wherever the failing call has a dialog to show (see
`Graphics.Initialize_outcome`), and fails on the device
`undecodableDevice`: the vertex shader fails to compile with `E_FAIL`, the
first and only failure, and leaves the diagnostics byte `0xFF`, which is not
UTF-8.  The conversion throws, and `Graphics::Initialize` returns no code
and shows no dialog, although it has made the calls up to the failing one
and none after it. -/
theorem Graphics.Initialize_undecodable_diagnostics :
    firstFailure undecodableDevice = some Step.D3DCompileFromFile_vs ∧
    FAILED (undecodableDevice.result Step.D3DCompileFromFile_vs) = true ∧
    undecodableDevice.errorMessages Step.D3DCompileFromFile_vs = some [0xFF] ∧
    undecodableDevice.from_bytes [0xFF] = none ∧
    (Graphics.Initialize rationalMath rationalCamera undecodableDevice
      ⟨1440, 1080, false, false⟩ (Graphics.GetInstance zeroStorage)).retVal = none ∧
    (Graphics.Initialize rationalMath rationalCamera undecodableDevice
      ⟨1440, 1080, false, false⟩ (Graphics.GetInstance zeroStorage)).events.filter
        InitEvent.isMessageBox = [] ∧
    (Graphics.Initialize rationalMath rationalCamera undecodableDevice
      ⟨1440, 1080, false, false⟩ (Graphics.GetInstance zeroStorage)).events.filterMap
        InitEvent.step? = Step.upTo Step.D3DCompileFromFile_vs := by
  have hf : firstFailure undecodableDevice = some Step.D3DCompileFromFile_vs := by decide
  have hd : dialogOf undecodableDevice Step.D3DCompileFromFile_vs = none := by decide
  have h := (Graphics.Initialize_outcome rationalMath rationalCamera undecodableDevice
    ⟨1440, 1080, false, false⟩ (Graphics.GetInstance zeroStorage)).1
  rw [hf] at h
  simp only [hd] at h
  exact ⟨hf, by decide, rfl, by decide, h.2.1, h.2.2, h.1⟩

/-- The flag of a division is set exactly when the divisor is a zero. -/
theorem fdiv_flag (x y : Float32) : (fdiv x y).2 = isZero y := by
  cases x <;> cases y <;> simp [fdiv, isZero]
  split <;> simp_all

/-- Rounding a magnitude of at least `2^24` never gives zero. -/
theorem roundRatio_pos (p : Nat) (h : 2 ^ 24 ≤ p) : 0 < roundRatio p 1 := by
  have hp : p ≠ 0 := by
    have : 0 < 2 ^ 24 := Nat.two_pow_pos _
    omega
  have hs : 2 ^ shiftOf p ≤ p := by
    unfold shiftOf
    rw [if_neg (by omega)]
    calc 2 ^ (Nat.log2 p - 23) ≤ 2 ^ Nat.log2 p := Nat.pow_le_pow_right (by norm_num) (by omega)
      _ ≤ p := Nat.log2_self_le hp
  have hq : 0 < p / 2 ^ shiftOf p := Nat.div_pos hs (Nat.two_pow_pos _)
  have hpos : 0 < 2 ^ shiftOf p := Nat.two_pow_pos _
  unfold roundRatio roundAt
  simp only [Nat.div_one, Nat.one_mul]
  split
  · exact Nat.mul_pos hq hpos
  · split
    · exact Nat.mul_pos (by omega) hpos
    · split
      · exact Nat.mul_pos hq hpos
      · exact Nat.mul_pos (by omega) hpos

/-- An integer converts to a zero exactly when it is zero. -/
theorem isZero_ofInt (n : Int) : isZero (ofInt n) = true ↔ n = 0 := by
  constructor
  · intro h
    by_contra hn
    have habs : 1 ≤ n.natAbs := by omega
    have hbig : 2 ^ 24 ≤ n.natAbs * 2 ^ 149 := by
      calc 2 ^ 24 ≤ 1 * 2 ^ 149 := by norm_num
        _ ≤ n.natAbs * 2 ^ 149 := Nat.mul_le_mul_right _ habs
    have hpos := roundRatio_pos _ hbig
    unfold ofInt pack at h
    split at h
    · simp only [isZero, beq_iff_eq] at h
      omega
    · simp [isZero] at h
  · intro h
    subst h
    decide!

/-- The division of the aspect ratio is reached when every call succeeds, and
its divisor is the converted `screenHeight`. -/
theorem Graphics.Initialize_dividedByZero_eq {V M : Type} (dx : DirectXMath V M)
    (cam : DirectXCamera V M) (dev : Device) (settings : Settings) (g : Graphics V M) :
    (Graphics.Initialize dx cam dev settings g).dividedByZero = true ↔
      (∀ s : Step, FAILED (dev.result s) = false) ∧
        isZero (ofInt settings.screenHeight) = true := by
  rw [Step.forall_iff]
  by_cases h1 : FAILED (dev.result Step.D3D11CreateDeviceAndSwapChain) = true
  · simp [Graphics.Initialize, h1]
  by_cases h2 : FAILED (dev.result Step.GetBuffer) = true
  · simp [Graphics.Initialize, h1, h2]
  by_cases h3 : FAILED (dev.result Step.CreateRenderTargetView) = true
  · simp [Graphics.Initialize, h1, h2, h3]
  by_cases h4 : FAILED (dev.result Step.CreateTexture2D) = true
  · simp [Graphics.Initialize, h1, h2, h3, h4]
  by_cases h5 : FAILED (dev.result Step.CreateDepthStencilView) = true
  · simp [Graphics.Initialize, h1, h2, h3, h4, h5]
  by_cases h6 : FAILED (dev.result Step.D3DCompileFromFile_vs) = true
  · cases hE : dev.errorMessages Step.D3DCompileFromFile_vs with
    | none => simp [Graphics.Initialize, h1, h2, h3, h4, h5, h6, hE]
    | some bytes =>
      cases hB : dev.from_bytes bytes <;>
        simp [Graphics.Initialize, h1, h2, h3, h4, h5, h6, hE, hB]
  by_cases h7 : FAILED (dev.result Step.CreateVertexShader) = true
  · simp [Graphics.Initialize, h1, h2, h3, h4, h5, h6, h7]
  by_cases h8 : FAILED (dev.result Step.D3DCompileFromFile_ps) = true
  · cases hE : dev.errorMessages Step.D3DCompileFromFile_ps with
    | none => simp [Graphics.Initialize, h1, h2, h3, h4, h5, h6, h7, h8, hE]
    | some bytes =>
      cases hB : dev.from_bytes bytes <;>
        simp [Graphics.Initialize, h1, h2, h3, h4, h5, h6, h7, h8, hE, hB]
  by_cases h9 : FAILED (dev.result Step.CreatePixelShader) = true
  · simp [Graphics.Initialize, h1, h2, h3, h4, h5, h6, h7, h8, h9]
  by_cases h10 : FAILED (dev.result Step.CreateInputLayout) = true
  · simp [Graphics.Initialize, h1, h2, h3, h4, h5, h6, h7, h8, h9, h10]
  by_cases h11 : FAILED (dev.result Step.CreateBuffer_vertex) = true
  · simp [Graphics.Initialize, h1, h2, h3, h4, h5, h6, h7, h8, h9, h10, h11]
  by_cases h12 : FAILED (dev.result Step.CreateBuffer_index) = true
  · simp [Graphics.Initialize, h1, h2, h3, h4, h5, h6, h7, h8, h9, h10, h11, h12]
  by_cases h13 : FAILED (dev.result Step.CreateBuffer_constant) = true
  · simp [Graphics.Initialize, h1, h2, h3, h4, h5, h6, h7, h8, h9, h10, h11, h12, h13]
  by_cases h14 : FAILED (dev.result Step.CreateWICTextureFromFile) = true
  · simp [Graphics.Initialize, h1, h2, h3, h4, h5, h6, h7, h8, h9, h10, h11, h12, h13, h14]
  by_cases h15 : FAILED (dev.result Step.CreateSamplerState) = true
  · simp [Graphics.Initialize, h1, h2, h3, h4, h5, h6, h7, h8, h9, h10, h11, h12, h13, h14, h15]
  have hd : (Graphics.Initialize dx cam dev settings g).dividedByZero =
      (fdiv (ofInt settings.screenWidth) (ofInt settings.screenHeight)).2 := by
    simp [Graphics.Initialize, h1, h2, h3, h4, h5, h6, h7, h8, h9, h10, h11, h12, h13, h14, h15]
  rw [hd, fdiv_flag]
  simp only [Bool.not_eq_true] at h1 h2 h3 h4 h5 h6 h7 h8 h9 h10 h11 h12 h13 h14 h15
  simp [h1, h2, h3, h4, h5, h6, h7, h8, h9, h10, h11, h12, h13, h14, h15]

/-- C8, as stated, fails: with every device call succeeding and a window of
height zero (`screenWidth = 1440`, `screenHeight = 0`), the aspect ratio of
`Graphics::Initialize` is computed by a division whose divisor is zero; the
quotient handed to the projection is an infinity. -/
theorem Graphics.Initialize_zero_height_divides_by_zero :
    (∀ s : Step, FAILED (okDevice.result s) = false) ∧
    (Graphics.Initialize rationalMath rationalCamera okDevice ⟨1440, 0, false, false⟩
      (Graphics.GetInstance zeroStorage)).dividedByZero = true ∧
    (fdiv (ofInt 1440) (ofInt 0)).1 = inf false := by
  have h0 : ofInt 0 = finite false 0 := by decide!
  have h1440 : ofInt 1440 = finite false (1440 * 2 ^ 149) := by
    unfold ofInt
    rw [roundRatio_of_shift _ _ 136 (by decide!) (by decide!) (by decide!)]
    decide!
  refine ⟨fun _ => rfl, ?_, ?_⟩
  · rw [Graphics.Initialize_dividedByZero_eq]
    refine ⟨fun _ => rfl, ?_⟩
    show isZero (ofInt 0) = true
    rw [h0]
    rfl
  · rw [h0, h1440]
    simp [fdiv]

/-- C8, amended: `Graphics::Initialize` divides by zero when computing the
aspect ratio exactly when every device call succeeds (so that the
computation is reached) and `screenHeight` is zero.  With a non-zero height
the divisor is never zero, whatever the width, zero included. -/
theorem Graphics.Initialize_dividedByZero_iff {V M : Type} (dx : DirectXMath V M)
    (cam : DirectXCamera V M) (dev : Device) (settings : Settings) (g : Graphics V M) :
    (Graphics.Initialize dx cam dev settings g).dividedByZero = true ↔
      (∀ s : Step, FAILED (dev.result s) = false) ∧ settings.screenHeight = 0 := by
  rw [Graphics.Initialize_dividedByZero_eq, isZero_ofInt]

/-! ## Claims about the window procedure and the message loop -/

/-- The literal `1.0f` as a magnitude. -/
theorem plusOne_eq : plusOne = finite false (2 ^ 149) := ofDecimal_one

/-- The literal `-1.0f` as a magnitude. -/
theorem minusOne_eq : minusOne = finite true (2 ^ 149) := by
  unfold minusOne
  rw [ofDecimal_one]
  rfl

/-- The literal `0.0f` as a magnitude. -/
theorem plusZero_eq : plusZero = finite false 0 := ofDecimal_zero

/-- C11: the cube geometry fits the draws that consume it.  The vertex list
has 24 vertices and the index list 36 indices, the count both `DrawIndexed`
calls of `Graphics::Render` pass (from index 0, with base vertex 0); every
index is below 24; for each face `f` of the six, the indices at positions
`6f .. 6f+5` are the two triangles `(4f, 4f+1, 4f+2)` and `(4f, 4f+2, 4f+3)`
and so use only the vertices `4f .. 4f+3` of that face; every vertex sits at
a corner `(±1, ±1, ±1)`; and each of the 8 corners occurs exactly 3 times in
the vertex list, at most once among the four vertices of any face. -/
theorem Graphics.cube_geometry_well_formed {V M : Type} (dx : DirectXMath V M)
    (g : Graphics V M) :
    Graphics.vertices.length = 24 ∧ Graphics.indices.length = 36 ∧
    (Graphics.Render dx g).2.1.filter Command.isDrawIndexed =
      [ Command.DrawIndexed Graphics.indices.length 0 0,
        Command.DrawIndexed Graphics.indices.length 0 0 ] ∧
    (∀ i ∈ Graphics.indices, i < Graphics.vertices.length) ∧
    (∀ f, f < 6 →
      faceIndices f = [4 * f, 4 * f + 1, 4 * f + 2, 4 * f, 4 * f + 2, 4 * f + 3]) ∧
    (∀ f, f < 6 → ∀ i ∈ faceIndices f, 4 * f ≤ i ∧ i < 4 * f + 4) ∧
    (toRat plusOne = 1 ∧ toRat minusOne = -1) ∧
    (∀ v ∈ Graphics.vertices, ∃ a b c : Bool, v.position = cubeCorner a b c) ∧
    (∀ a b c : Bool, countAt (cubeCorner a b c) Graphics.vertices = 3) ∧
    (∀ f, f < 6 → ∀ a b c : Bool, countAt (cubeCorner a b c) (faceVertices f) ≤ 1) := by
  refine ⟨rfl, rfl, rfl, by decide, by decide, by decide, ?_, ?_, ?_, ?_⟩
  · rw [plusOne_eq, minusOne_eq]
    constructor <;> norm_num [toRat]
  · simp only [Graphics.vertices, cubeCorner, plusOne_eq, minusOne_eq, plusZero_eq]
    decide!
  · simp only [Graphics.vertices, countAt, cubeCorner, plusOne_eq, minusOne_eq, plusZero_eq]
    decide!
  · simp only [Graphics.vertices, faceVertices, countAt, cubeCorner, plusOne_eq, minusOne_eq,
      plusZero_eq]
    decide!

end HelloDx11
